import Mathlib

set_option maxHeartbeats 1000000

/- Shallow embedding of `src/decoder.rs`, the MQTT v5 control-packet decoder.

   A byte buffer (`BytesMut`) is a `List Nat` whose entries are reduced mod 256
   at every read; the `Cursor<&mut BytesMut>` is an explicit position `pos : Nat`
   into that list.  Every reader mirrors the Rust return convention
   `Result<Option<T>, DecodeError>`:
   `.error e` for `Err(e)`, `.ok none` for `Ok(None)` (incomplete input, the
   macros `return_if_none!` / `require_length!` / `read_*!`), and
   `.ok (some (v, pos))` for `Ok(Some(v))` together with the cursor position
   after the read.  Bit masks on bytes are rendered arithmetically
   (`b & 0x7F = b % 128`, `b & 0x80 != 0 ↔ b / 128 = 1`, and so on); each such
   translation is noted next to the mask it renders. -/

inductive DecodeError where
  | InvalidPacketType
  | InvalidRemainingLength
  | InvalidUtf8
  | InvalidQoS
  | InvalidRetainHandling
  | InvalidPropertyId
  | InvalidConnectReason
  | InvalidPublishAckReason
  | InvalidPublishReceivedReason
  | InvalidPublishReleaseReason
  | InvalidPublishCompleteReason
  | InvalidSubscribeAckReason
  | InvalidUnsubscribeAckReason
  | InvalidDisconnectReason
  | InvalidAuthenticateReason
deriving DecidableEq

/-- Modelled from the spec: `QoS` lives in the repository's `types` module,
which is not under `src/`.  Spec 3.2: a two-bit value, `AtMostOnce(0)`,
`AtLeastOnce(1)`, `ExactlyOnce(2)`; the pattern `3` fails with `InvalidQoS`. -/
inductive QoS where
  | AtMostOnce
  | AtLeastOnce
  | ExactlyOnce
deriving DecidableEq

/-- Modelled from the spec: `QoS::try_from`, spec 3.2. -/
def QoS.fromByte : Nat → Option QoS
  | 0 => some .AtMostOnce
  | 1 => some .AtLeastOnce
  | 2 => some .ExactlyOnce
  | _ => none

/-- Modelled from the spec: `RetainHandling` lives in the missing `types`
module.  Spec 3.2: values 0/1/2; anything else fails `InvalidRetainHandling`. -/
inductive RetainHandling where
  | SendAtSubscribeTime
  | SendAtSubscribeTimeIfNonexistent
  | DoNotSend
deriving DecidableEq

/-- Modelled from the spec: `RetainHandling::try_from`, spec 3.2. -/
def RetainHandling.fromByte : Nat → Option RetainHandling
  | 0 => some .SendAtSubscribeTime
  | 1 => some .SendAtSubscribeTimeIfNonexistent
  | 2 => some .DoNotSend
  | _ => none

/-- Modelled from the spec: `PacketType` lives in the missing `types` module.
Spec 3.2: fifteen kinds identified by the 4-bit code `Connect(1)` …
`Authenticate(15)`; any other value fails with `InvalidPacketType`. -/
inductive PacketType where
  | Connect
  | ConnectAck
  | Publish
  | PublishAck
  | PublishReceived
  | PublishRelease
  | PublishComplete
  | Subscribe
  | SubscribeAck
  | Unsubscribe
  | UnsubscribeAck
  | PingRequest
  | PingResponse
  | Disconnect
  | Authenticate
deriving DecidableEq

/-- Modelled from the spec: `PacketType::try_from`, spec 3.2. -/
def PacketType.fromByte : Nat → Option PacketType
  | 1 => some .Connect
  | 2 => some .ConnectAck
  | 3 => some .Publish
  | 4 => some .PublishAck
  | 5 => some .PublishReceived
  | 6 => some .PublishRelease
  | 7 => some .PublishComplete
  | 8 => some .Subscribe
  | 9 => some .SubscribeAck
  | 10 => some .Unsubscribe
  | 11 => some .UnsubscribeAck
  | 12 => some .PingRequest
  | 13 => some .PingResponse
  | 14 => some .Disconnect
  | 15 => some .Authenticate
  | _ => none

/-- Modelled from the spec: the per-kind reason-code enums live in the missing
`types` module.  The spec fixes only the defaults (`Success`, byte `0x00`, and
`NormalDisconnection`) and defers the byte sets to the MQTT v5.0 wire format it
names as its reference; each `fromByte` below lists that format's codes for its
kind.  No claim depends on the exact byte sets. -/
structure ConnectReason where
  code : Nat
deriving DecidableEq

def ConnectReason.Success : ConnectReason := ⟨0⟩

def ConnectReason.fromByte (b : Nat) : Option ConnectReason :=
  if [0x00, 0x80, 0x81, 0x82, 0x83, 0x84, 0x85, 0x86, 0x87, 0x88, 0x89, 0x8A,
      0x8C, 0x90, 0x95, 0x97, 0x99, 0x9A, 0x9B, 0x9C, 0x9D, 0x9F].contains b
  then some ⟨b⟩ else none

structure PublishAckReason where
  code : Nat
deriving DecidableEq

def PublishAckReason.Success : PublishAckReason := ⟨0⟩

def PublishAckReason.fromByte (b : Nat) : Option PublishAckReason :=
  if [0x00, 0x10, 0x80, 0x83, 0x87, 0x90, 0x91, 0x97, 0x99].contains b
  then some ⟨b⟩ else none

structure PublishReceivedReason where
  code : Nat
deriving DecidableEq

def PublishReceivedReason.Success : PublishReceivedReason := ⟨0⟩

def PublishReceivedReason.fromByte (b : Nat) : Option PublishReceivedReason :=
  if [0x00, 0x10, 0x80, 0x83, 0x87, 0x90, 0x91, 0x97, 0x99].contains b
  then some ⟨b⟩ else none

structure PublishReleaseReason where
  code : Nat
deriving DecidableEq

def PublishReleaseReason.Success : PublishReleaseReason := ⟨0⟩

def PublishReleaseReason.fromByte (b : Nat) : Option PublishReleaseReason :=
  if [0x00, 0x92].contains b then some ⟨b⟩ else none

structure PublishCompleteReason where
  code : Nat
deriving DecidableEq

def PublishCompleteReason.Success : PublishCompleteReason := ⟨0⟩

def PublishCompleteReason.fromByte (b : Nat) : Option PublishCompleteReason :=
  if [0x00, 0x92].contains b then some ⟨b⟩ else none

structure SubscribeAckReason where
  code : Nat
deriving DecidableEq

def SubscribeAckReason.fromByte (b : Nat) : Option SubscribeAckReason :=
  if [0x00, 0x01, 0x02, 0x80, 0x83, 0x87, 0x8F, 0x91, 0x97, 0x9E, 0xA1,
      0xA2].contains b
  then some ⟨b⟩ else none

structure UnsubscribeAckReason where
  code : Nat
deriving DecidableEq

def UnsubscribeAckReason.fromByte (b : Nat) : Option UnsubscribeAckReason :=
  if [0x00, 0x11, 0x80, 0x83, 0x87, 0x8F, 0x91].contains b
  then some ⟨b⟩ else none

structure DisconnectReason where
  code : Nat
deriving DecidableEq

def DisconnectReason.NormalDisconnection : DisconnectReason := ⟨0⟩

def DisconnectReason.fromByte (b : Nat) : Option DisconnectReason :=
  if [0x00, 0x04, 0x80, 0x81, 0x82, 0x83, 0x87, 0x89, 0x8B, 0x8D, 0x8E, 0x8F,
      0x90, 0x93, 0x94, 0x95, 0x96, 0x97, 0x98, 0x99, 0x9A, 0x9B, 0x9C, 0x9D,
      0x9E, 0x9F, 0xA0, 0xA1, 0xA2].contains b
  then some ⟨b⟩ else none

structure AuthenticateReason where
  code : Nat
deriving DecidableEq

def AuthenticateReason.Success : AuthenticateReason := ⟨0⟩

def AuthenticateReason.fromByte (b : Nat) : Option AuthenticateReason :=
  if [0x00, 0x18, 0x19].contains b then some ⟨b⟩ else none

/-- Modelled from the spec: the `Property` value enum of the missing `types`
module, one constructor per row of the spec 3.3 property table.  Strings and
binary blobs are byte lists; `UserProperty` carries a (key, value) pair;
`SubscriptionIdentifier` wraps the `u32` the decoder stores into
`VariableByteInt` (so it carries a `Nat` here). -/
inductive Property where
  | PayloadFormatIndicator (b : Nat)
  | MessageExpiryInterval (v : Nat)
  | ContentType (s : List Nat)
  | ResponseTopic (s : List Nat)
  | CorrelationData (d : List Nat)
  | SubscriptionIdentifier (v : Nat)
  | SessionExpiryInterval (v : Nat)
  | AssignedClientIdentifier (s : List Nat)
  | ServerKeepAlive (v : Nat)
  | AuthenticationMethod (s : List Nat)
  | AuthenticationData (d : List Nat)
  | RequestProblemInformation (b : Nat)
  | WillDelayInterval (v : Nat)
  | RequestResponseInformation (b : Nat)
  | ResponseInformation (s : List Nat)
  | ServerReference (s : List Nat)
  | ReasonString (s : List Nat)
  | ReceiveMaximum (v : Nat)
  | TopicAliasMaximum (v : Nat)
  | TopicAlias (v : Nat)
  | MaximumQos (q : QoS)
  | RetainAvailable (b : Nat)
  | UserProperty (key : List Nat) (value : List Nat)
  | MaximumPacketSize (v : Nat)
  | WildcardSubscriptionAvailable (b : Nat)
  | SubscriptionIdentifierAvailable (b : Nat)
  | SharedSubscriptionAvailable (b : Nat)
deriving DecidableEq

/-- Modelled from the spec: the `PropertyType` identifier enum of the missing
`types` module (spec 3.3 table). -/
inductive PropertyType where
  | PayloadFormatIndicator
  | MessageExpiryInterval
  | ContentType
  | ResponseTopic
  | CorrelationData
  | SubscriptionIdentifier
  | SessionExpiryInterval
  | AssignedClientIdentifier
  | ServerKeepAlive
  | AuthenticationMethod
  | AuthenticationData
  | RequestProblemInformation
  | WillDelayInterval
  | RequestResponseInformation
  | ResponseInformation
  | ServerReference
  | ReasonString
  | ReceiveMaximum
  | TopicAliasMaximum
  | TopicAlias
  | MaximumQos
  | RetainAvailable
  | UserProperty
  | MaximumPacketSize
  | WildcardSubscriptionAvailable
  | SubscriptionIdentifierAvailable
  | SharedSubscriptionAvailable
deriving DecidableEq

/-- Modelled from the spec: `PropertyType::try_from` over the 27 identifiers of
the spec 3.3 table; any other identifier has no `PropertyType` (and
`decode_property` turns that into `InvalidPropertyId`). -/
def PropertyType.fromId : Nat → Option PropertyType
  | 1 => some .PayloadFormatIndicator
  | 2 => some .MessageExpiryInterval
  | 3 => some .ContentType
  | 8 => some .ResponseTopic
  | 9 => some .CorrelationData
  | 11 => some .SubscriptionIdentifier
  | 17 => some .SessionExpiryInterval
  | 18 => some .AssignedClientIdentifier
  | 19 => some .ServerKeepAlive
  | 21 => some .AuthenticationMethod
  | 22 => some .AuthenticationData
  | 23 => some .RequestProblemInformation
  | 24 => some .WillDelayInterval
  | 25 => some .RequestResponseInformation
  | 26 => some .ResponseInformation
  | 28 => some .ServerReference
  | 31 => some .ReasonString
  | 33 => some .ReceiveMaximum
  | 34 => some .TopicAliasMaximum
  | 35 => some .TopicAlias
  | 36 => some .MaximumQos
  | 37 => some .RetainAvailable
  | 38 => some .UserProperty
  | 39 => some .MaximumPacketSize
  | 40 => some .WildcardSubscriptionAvailable
  | 41 => some .SubscriptionIdentifierAvailable
  | 42 => some .SharedSubscriptionAvailable
  | _ => none

/-- The `read_u8!` macro: `Ok(None)` when no byte remains, else one byte and
the advanced cursor.  Buffer entries are reduced mod 256 (they model `u8`). -/
def read_u8 (buf : List Nat) (pos : Nat) : Option (Nat × Nat) :=
  match buf[pos]? with
  | some b => some (b % 256, pos + 1)
  | none => none

/-- The `read_u16!` macro: big-endian two-byte integer. -/
def read_u16 (buf : List Nat) (pos : Nat) : Option (Nat × Nat) :=
  match buf[pos]?, buf[pos + 1]? with
  | some b0, some b1 => some ((b0 % 256) * 256 + b1 % 256, pos + 2)
  | _, _ => none

/-- The `read_u32!` macro: big-endian four-byte integer. -/
def read_u32 (buf : List Nat) (pos : Nat) : Option (Nat × Nat) :=
  match buf[pos]?, buf[pos + 1]?, buf[pos + 2]?, buf[pos + 3]? with
  | some b0, some b1, some b2, some b3 =>
    some ((b0 % 256) * 16777216 + (b1 % 256) * 65536 + (b2 % 256) * 256
      + b3 % 256, pos + 4)
  | _, _, _, _ => none

/-- Loop body of `decode_variable_int`.  The Rust `loop` runs at most four
times: once `multiplier` has been multiplied up to `128^3` a further iteration
makes it `128^4 > 128^3` and the function returns `InvalidRemainingLength`
before testing the continuation bit, so with `fuel = 4` the `0` case is never
reached (its value is irrelevant).  `b & 0x7F` is `b % 128`; the continuation
test `b & 0x80 == 0` is `b / 128 = 0` (bytes are `< 256`). -/
def decode_variable_int_go (buf : List Nat) :
    Nat → Nat → Nat → Nat → Except DecodeError (Option (Nat × Nat))
  | 0, _, _, _ => .error .InvalidRemainingLength
  | fuel + 1, multiplier, value, pos =>
    match read_u8 buf pos with
    | none => .ok none
    | some (b, pos1) =>
      if multiplier * 128 > 128 * 128 * 128 then .error .InvalidRemainingLength
      else if b / 128 = 0 then .ok (some (value + b % 128 * multiplier, pos1))
      else decode_variable_int_go buf fuel (multiplier * 128)
        (value + b % 128 * multiplier) pos1

/-- `decode_variable_int` (decoder.rs lines 96–116). -/
def decode_variable_int (buf : List Nat) (pos : Nat) :
    Except DecodeError (Option (Nat × Nat)) :=
  decode_variable_int_go buf 4 1 0 pos

/-- A UTF-8 continuation byte, `0x80 ..= 0xBF`. -/
def isCont (b : Nat) : Bool := 0x80 ≤ b && b ≤ 0xBF

/-- The UTF-8 validity check performed by `String::from_utf8` in
`decode_string`: standard UTF-8, rejecting overlong forms, surrogates and
code points above `0x10FFFF`. -/
def isValidUtf8 : List Nat → Bool
  | [] => true
  | b0 :: rest =>
    if b0 ≤ 0x7F then isValidUtf8 rest
    else if b0 ≤ 0xC1 then false
    else if b0 ≤ 0xDF then
      match rest with
      | b1 :: rest1 => isCont b1 && isValidUtf8 rest1
      | [] => false
    else if b0 ≤ 0xEF then
      match rest with
      | b1 :: b2 :: rest2 =>
        (if b0 = 0xE0 then decide (0xA0 ≤ b1 && b1 ≤ 0xBF)
         else if b0 = 0xED then decide (0x80 ≤ b1 && b1 ≤ 0x9F)
         else isCont b1) && isCont b2 && isValidUtf8 rest2
      | _ => false
    else if b0 ≤ 0xF4 then
      match rest with
      | b1 :: b2 :: b3 :: rest3 =>
        (if b0 = 0xF0 then decide (0x90 ≤ b1 && b1 ≤ 0xBF)
         else if b0 = 0xF4 then decide (0x80 ≤ b1 && b1 ≤ 0x8F)
         else isCont b1) && isCont b2 && isCont b3 && isValidUtf8 rest3
      | _ => false
    else false

/-- `decode_string` (decoder.rs lines 118–133): two-byte length `N`, then `N`
bytes which must be valid UTF-8 (`InvalidUtf8` otherwise); the cursor advances
over the string bytes on success.  A decoded string is kept as its byte list. -/
def decode_string (buf : List Nat) (pos : Nat) :
    Except DecodeError (Option (List Nat × Nat)) :=
  match read_u16 buf pos with
  | none => .ok none
  | some (str_size_bytes, pos1) =>
    if buf.length - pos1 < str_size_bytes then .ok none
    else if isValidUtf8 ((buf.drop pos1).take str_size_bytes) then
      .ok (some ((buf.drop pos1).take str_size_bytes, pos1 + str_size_bytes))
    else .error .InvalidUtf8

/-- `decode_binary_data` (decoder.rs lines 135–142): two-byte length `N`, then
the `N` bytes at the cursor are returned as a slice of the underlying buffer.
Note that, exactly as in the source, the cursor is NOT advanced over the data:
it stays just after the two-byte length. -/
def decode_binary_data (buf : List Nat) (pos : Nat) :
    Except DecodeError (Option (List Nat × Nat)) :=
  match read_u16 buf pos with
  | none => .ok none
  | some (data_size_bytes, pos1) =>
    if buf.length - pos1 < data_size_bytes then .ok none
    else .ok (some ((buf.drop pos1).take data_size_bytes, pos1))

/-- `decode_binary_data_with_size` (decoder.rs lines 144–153): externally sized
binary data; as in the source the cursor is NOT advanced over the data. -/
def decode_binary_data_with_size (buf : List Nat) (pos : Nat) (size : Nat) :
    Except DecodeError (Option (List Nat × Nat)) :=
  if buf.length - pos < size then .ok none
  else .ok (some ((buf.drop pos).take size, pos))

/-- `decode_property` (decoder.rs lines 155–292): dispatch the identifier
through the property table; an identifier outside the table fails with
`InvalidPropertyId`.  Note `SubscriptionIdentifier` is read with `read_u32!`
(a fixed four-byte big-endian integer), exactly as in the source. -/
def decode_property (property_id : Nat) (buf : List Nat) (pos : Nat) :
    Except DecodeError (Option (Property × Nat)) :=
  match PropertyType.fromId property_id with
  | none => .error .InvalidPropertyId
  | some t =>
    match t with
    | .PayloadFormatIndicator =>
      match read_u8 buf pos with
      | none => .ok none
      | some (b, pos1) => .ok (some (.PayloadFormatIndicator b, pos1))
    | .MessageExpiryInterval =>
      match read_u32 buf pos with
      | none => .ok none
      | some (v, pos1) => .ok (some (.MessageExpiryInterval v, pos1))
    | .ContentType =>
      match decode_string buf pos with
      | .error e => .error e
      | .ok none => .ok none
      | .ok (some (s, pos1)) => .ok (some (.ContentType s, pos1))
    | .ResponseTopic =>
      match decode_string buf pos with
      | .error e => .error e
      | .ok none => .ok none
      | .ok (some (s, pos1)) => .ok (some (.ResponseTopic s, pos1))
    | .CorrelationData =>
      match decode_binary_data buf pos with
      | .error e => .error e
      | .ok none => .ok none
      | .ok (some (d, pos1)) => .ok (some (.CorrelationData d, pos1))
    | .SubscriptionIdentifier =>
      match read_u32 buf pos with
      | none => .ok none
      | some (v, pos1) => .ok (some (.SubscriptionIdentifier v, pos1))
    | .SessionExpiryInterval =>
      match read_u32 buf pos with
      | none => .ok none
      | some (v, pos1) => .ok (some (.SessionExpiryInterval v, pos1))
    | .AssignedClientIdentifier =>
      match decode_string buf pos with
      | .error e => .error e
      | .ok none => .ok none
      | .ok (some (s, pos1)) => .ok (some (.AssignedClientIdentifier s, pos1))
    | .ServerKeepAlive =>
      match read_u16 buf pos with
      | none => .ok none
      | some (v, pos1) => .ok (some (.ServerKeepAlive v, pos1))
    | .AuthenticationMethod =>
      match decode_string buf pos with
      | .error e => .error e
      | .ok none => .ok none
      | .ok (some (s, pos1)) => .ok (some (.AuthenticationMethod s, pos1))
    | .AuthenticationData =>
      match decode_binary_data buf pos with
      | .error e => .error e
      | .ok none => .ok none
      | .ok (some (d, pos1)) => .ok (some (.AuthenticationData d, pos1))
    | .RequestProblemInformation =>
      match read_u8 buf pos with
      | none => .ok none
      | some (b, pos1) => .ok (some (.RequestProblemInformation b, pos1))
    | .WillDelayInterval =>
      match read_u32 buf pos with
      | none => .ok none
      | some (v, pos1) => .ok (some (.WillDelayInterval v, pos1))
    | .RequestResponseInformation =>
      match read_u8 buf pos with
      | none => .ok none
      | some (b, pos1) => .ok (some (.RequestResponseInformation b, pos1))
    | .ResponseInformation =>
      match decode_string buf pos with
      | .error e => .error e
      | .ok none => .ok none
      | .ok (some (s, pos1)) => .ok (some (.ResponseInformation s, pos1))
    | .ServerReference =>
      match decode_string buf pos with
      | .error e => .error e
      | .ok none => .ok none
      | .ok (some (s, pos1)) => .ok (some (.ServerReference s, pos1))
    | .ReasonString =>
      match decode_string buf pos with
      | .error e => .error e
      | .ok none => .ok none
      | .ok (some (s, pos1)) => .ok (some (.ReasonString s, pos1))
    | .ReceiveMaximum =>
      match read_u16 buf pos with
      | none => .ok none
      | some (v, pos1) => .ok (some (.ReceiveMaximum v, pos1))
    | .TopicAliasMaximum =>
      match read_u16 buf pos with
      | none => .ok none
      | some (v, pos1) => .ok (some (.TopicAliasMaximum v, pos1))
    | .TopicAlias =>
      match read_u16 buf pos with
      | none => .ok none
      | some (v, pos1) => .ok (some (.TopicAlias v, pos1))
    | .MaximumQos =>
      match read_u8 buf pos with
      | none => .ok none
      | some (b, pos1) =>
        match QoS.fromByte b with
        | none => .error .InvalidQoS
        | some q => .ok (some (.MaximumQos q, pos1))
    | .RetainAvailable =>
      match read_u8 buf pos with
      | none => .ok none
      | some (b, pos1) => .ok (some (.RetainAvailable b, pos1))
    | .UserProperty =>
      match decode_string buf pos with
      | .error e => .error e
      | .ok none => .ok none
      | .ok (some (key, pos1)) =>
        match decode_string buf pos1 with
        | .error e => .error e
        | .ok none => .ok none
        | .ok (some (value, pos2)) => .ok (some (.UserProperty key value, pos2))
    | .MaximumPacketSize =>
      match read_u32 buf pos with
      | none => .ok none
      | some (v, pos1) => .ok (some (.MaximumPacketSize v, pos1))
    | .WildcardSubscriptionAvailable =>
      match read_u8 buf pos with
      | none => .ok none
      | some (b, pos1) => .ok (some (.WildcardSubscriptionAvailable b, pos1))
    | .SubscriptionIdentifierAvailable =>
      match read_u8 buf pos with
      | none => .ok none
      | some (b, pos1) => .ok (some (.SubscriptionIdentifierAvailable b, pos1))
    | .SharedSubscriptionAvailable =>
      match read_u8 buf pos with
      | none => .ok none
      | some (b, pos1) => .ok (some (.SharedSubscriptionAvailable b, pos1))

/-- Loop of `decode_properties` (decoder.rs lines 308–317).  The Rust loop
breaks once `cursor_pos - start_cursor_pos >= property_length`; every
iteration consumes at least the one identifier byte, so `property_length`
iterations always reach the break and with `fuel = property_length` the `0`
case returns exactly what the break would.  The caller's `FnMut` sink is an
explicit state-passing function `accept`. -/
def decode_properties_loop {σ : Type} (buf : List Nat)
    (accept : Property → σ → σ) (start_cursor_pos property_length : Nat) :
    Nat → σ → Nat → Except DecodeError (Option (σ × Nat))
  | 0, s, pos => .ok (some (s, pos))
  | fuel + 1, s, pos =>
    if pos - start_cursor_pos ≥ property_length then .ok (some (s, pos))
    else
      match decode_variable_int buf pos with
      | .error e => .error e
      | .ok none => .ok none
      | .ok (some (property_id, pos1)) =>
        match decode_property property_id buf pos1 with
        | .error e => .error e
        | .ok none => .ok none
        | .ok (some (prop, pos2)) =>
          decode_properties_loop buf accept start_cursor_pos property_length
            fuel (accept prop s) pos2

/-- `decode_properties` (decoder.rs lines 294–320): read a VBI property
length, return immediately when it is zero, require that many bytes, then run
the property loop feeding each decoded property to the sink. -/
def decode_properties {σ : Type} (buf : List Nat) (pos : Nat)
    (accept : Property → σ → σ) (s : σ) :
    Except DecodeError (Option (σ × Nat)) :=
  match decode_variable_int buf pos with
  | .error e => .error e
  | .ok none => .ok none
  | .ok (some (property_length, pos1)) =>
    if property_length = 0 then .ok (some (s, pos1))
    else if buf.length - pos1 < property_length then .ok none
    else decode_properties_loop buf accept pos1 property_length
      property_length s pos1

/-- Modelled from the spec: `FinalWill` of the missing `types` module, the
will record assembled by `decode_connect` (decoder.rs lines 389–401). -/
structure FinalWill where
  topic : List Nat
  payload : List Nat
  qos : QoS
  should_retain : Bool
  will_delay_interval : Option Nat
  payload_format_indicator : Option Nat
  message_expiry_interval : Option Nat
  content_type : Option (List Nat)
  response_topic : Option (List Nat)
  correlation_data : Option (List Nat)
  user_properties : List (List Nat × List Nat)
deriving DecidableEq

/-- Modelled from the spec: `ConnectPacket` (spec 4.3, decoder.rs lines
417–435). -/
structure ConnectPacket where
  protocol_name : List Nat
  protocol_level : Nat
  clean_start : Bool
  keep_alive : Nat
  session_expiry_interval : Option Nat
  receive_maximum : Option Nat
  maximum_packet_size : Option Nat
  topic_alias_maximum : Option Nat
  request_response_information : Option Nat
  request_problem_information : Option Nat
  user_properties : List (List Nat × List Nat)
  authentication_method : Option (List Nat)
  authentication_data : Option (List Nat)
  client_id : List Nat
  will : Option FinalWill
  user_name : Option (List Nat)
  password : Option (List Nat)
deriving DecidableEq

/-- Modelled from the spec: `ConnectAckPacket` (decoder.rs lines 491–511). -/
structure ConnectAckPacket where
  session_present : Bool
  reason_code : ConnectReason
  session_expiry_interval : Option Nat
  receive_maximum : Option Nat
  maximum_qos : Option QoS
  retain_available : Option Nat
  maximum_packet_size : Option Nat
  assigned_client_identifier : Option (List Nat)
  topic_alias_maximum : Option Nat
  reason_string : Option (List Nat)
  user_properties : List (List Nat × List Nat)
  wildcard_subscription_available : Option Nat
  subscription_identifiers_available : Option Nat
  shared_subscription_available : Option Nat
  server_keep_alive : Option Nat
  response_information : Option (List Nat)
  server_reference : Option (List Nat)
  authentication_method : Option (List Nat)
  authentication_data : Option (List Nat)
deriving DecidableEq

/-- Modelled from the spec: `PublishPacket` (decoder.rs lines 565–583). -/
structure PublishPacket where
  is_duplicate : Bool
  qos : QoS
  retain : Bool
  topic_name : List Nat
  packet_id : Option Nat
  payload_format_indicator : Option Nat
  message_expiry_interval : Option Nat
  topic_alias : Option Nat
  response_topic : Option (List Nat)
  correlation_data : Option (List Nat)
  user_properties : List (List Nat × List Nat)
  subscription_identifier : Option Nat
  content_type : Option (List Nat)
  payload : List Nat
deriving DecidableEq

/-- Modelled from the spec: `PublishAckPacket` (decoder.rs lines 594–620). -/
structure PublishAckPacket where
  packet_id : Nat
  reason_code : PublishAckReason
  reason_string : Option (List Nat)
  user_properties : List (List Nat × List Nat)
deriving DecidableEq

/-- Modelled from the spec: `PublishReceivedPacket`. -/
structure PublishReceivedPacket where
  packet_id : Nat
  reason_code : PublishReceivedReason
  reason_string : Option (List Nat)
  user_properties : List (List Nat × List Nat)
deriving DecidableEq

/-- Modelled from the spec: `PublishReleasePacket`. -/
structure PublishReleasePacket where
  packet_id : Nat
  reason_code : PublishReleaseReason
  reason_string : Option (List Nat)
  user_properties : List (List Nat × List Nat)
deriving DecidableEq

/-- Modelled from the spec: `PublishCompletePacket`. -/
structure PublishCompletePacket where
  packet_id : Nat
  reason_code : PublishCompleteReason
  reason_string : Option (List Nat)
  user_properties : List (List Nat × List Nat)
deriving DecidableEq

/-- Modelled from the spec: `SubscriptionTopic` (decoder.rs lines 781–787). -/
structure SubscriptionTopic where
  topic : List Nat
  maximum_qos : QoS
  no_local : Bool
  retain_as_published : Bool
  retain_handling : RetainHandling
deriving DecidableEq

/-- Modelled from the spec: `SubscribePacket` (decoder.rs lines 795–800). -/
structure SubscribePacket where
  packet_id : Nat
  subscription_identifier : Option Nat
  user_properties : List (List Nat × List Nat)
  subscription_topics : List SubscriptionTopic
deriving DecidableEq

/-- Modelled from the spec: `SubscribeAckPacket` (decoder.rs line 835). -/
structure SubscribeAckPacket where
  packet_id : Nat
  reason_string : Option (List Nat)
  user_properties : List (List Nat × List Nat)
  reason_codes : List SubscribeAckReason
deriving DecidableEq

/-- Modelled from the spec: `UnsubscribePacket` (decoder.rs line 876). -/
structure UnsubscribePacket where
  packet_id : Nat
  user_properties : List (List Nat × List Nat)
  topics : List (List Nat)
deriving DecidableEq

/-- Modelled from the spec: `UnsubscribeAckPacket` (decoder.rs line 911). -/
structure UnsubscribeAckPacket where
  packet_id : Nat
  reason_string : Option (List Nat)
  user_properties : List (List Nat × List Nat)
  reason_codes : List UnsubscribeAckReason
deriving DecidableEq

/-- Modelled from the spec: `DisconnectPacket` (decoder.rs lines 951–957). -/
structure DisconnectPacket where
  reason_code : DisconnectReason
  session_expiry_interval : Option Nat
  reason_string : Option (List Nat)
  user_properties : List (List Nat × List Nat)
  server_reference : Option (List Nat)
deriving DecidableEq

/-- Modelled from the spec: `AuthenticatePacket` (decoder.rs lines 997–1003). -/
structure AuthenticatePacket where
  reason_code : AuthenticateReason
  authentication_method : Option (List Nat)
  authentication_data : Option (List Nat)
  reason_string : Option (List Nat)
  user_properties : List (List Nat × List Nat)
deriving DecidableEq

/-- Modelled from the spec: the `Packet` tagged union (spec 3.4). -/
inductive Packet where
  | Connect (p : ConnectPacket)
  | ConnectAck (p : ConnectAckPacket)
  | Publish (p : PublishPacket)
  | PublishAck (p : PublishAckPacket)
  | PublishReceived (p : PublishReceivedPacket)
  | PublishRelease (p : PublishReleasePacket)
  | PublishComplete (p : PublishCompletePacket)
  | Subscribe (p : SubscribePacket)
  | SubscribeAck (p : SubscribeAckPacket)
  | Unsubscribe (p : UnsubscribePacket)
  | UnsubscribeAck (p : UnsubscribeAckPacket)
  | PingRequest
  | PingResponse
  | Disconnect (p : DisconnectPacket)
  | Authenticate (p : AuthenticatePacket)
deriving DecidableEq

/-- The mutable locals captured by `decode_connect`'s property closure
(decoder.rs lines 328–336). -/
structure ConnectProps where
  session_expiry_interval : Option Nat
  receive_maximum : Option Nat
  maximum_packet_size : Option Nat
  topic_alias_maximum : Option Nat
  request_response_information : Option Nat
  request_problem_information : Option Nat
  user_properties : List (List Nat × List Nat)
  authentication_method : Option (List Nat)
  authentication_data : Option (List Nat)
deriving DecidableEq

def connect_props_init : ConnectProps :=
  { session_expiry_interval := none, receive_maximum := none,
    maximum_packet_size := none, topic_alias_maximum := none,
    request_response_information := none, request_problem_information := none,
    user_properties := [], authentication_method := none,
    authentication_data := none }

/-- The property closure of `decode_connect` (decoder.rs lines 338–351): the
nine accepted variants update their field, everything else falls into the
`_ => {}` arm and leaves the state untouched. -/
def connect_prop_accept (p : Property) (s : ConnectProps) : ConnectProps :=
  match p with
  | .SessionExpiryInterval v => { s with session_expiry_interval := some v }
  | .ReceiveMaximum v => { s with receive_maximum := some v }
  | .MaximumPacketSize v => { s with maximum_packet_size := some v }
  | .TopicAliasMaximum v => { s with topic_alias_maximum := some v }
  | .RequestResponseInformation b =>
    { s with request_response_information := some b }
  | .RequestProblemInformation b =>
    { s with request_problem_information := some b }
  | .UserProperty k v => { s with user_properties := s.user_properties ++ [(k, v)] }
  | .AuthenticationMethod m => { s with authentication_method := some m }
  | .AuthenticationData d => { s with authentication_data := some d }
  | _ => s

/-- Characterization of the match arms of `connect_prop_accept`: `true` on
exactly the nine property variants the Connect closure stores. -/
def connect_prop_is_accepted (p : Property) : Bool :=
  match p with
  | .SessionExpiryInterval _ => true
  | .ReceiveMaximum _ => true
  | .MaximumPacketSize _ => true
  | .TopicAliasMaximum _ => true
  | .RequestResponseInformation _ => true
  | .RequestProblemInformation _ => true
  | .UserProperty _ _ => true
  | .AuthenticationMethod _ => true
  | .AuthenticationData _ => true
  | _ => false

/-- The mutable locals captured by the will-property closure inside
`decode_connect` (decoder.rs lines 365–371). -/
structure WillProps where
  will_delay_interval : Option Nat
  payload_format_indicator : Option Nat
  message_expiry_interval : Option Nat
  content_type : Option (List Nat)
  response_topic : Option (List Nat)
  correlation_data : Option (List Nat)
  user_properties : List (List Nat × List Nat)
deriving DecidableEq

def will_props_init : WillProps :=
  { will_delay_interval := none, payload_format_indicator := none,
    message_expiry_interval := none, content_type := none,
    response_topic := none, correlation_data := none, user_properties := [] }

/-- The will-property closure of `decode_connect` (decoder.rs lines 373–384). -/
def will_prop_accept (p : Property) (s : WillProps) : WillProps :=
  match p with
  | .WillDelayInterval v => { s with will_delay_interval := some v }
  | .PayloadFormatIndicator b => { s with payload_format_indicator := some b }
  | .MessageExpiryInterval v => { s with message_expiry_interval := some v }
  | .ContentType c => { s with content_type := some c }
  | .ResponseTopic t => { s with response_topic := some t }
  | .CorrelationData d => { s with correlation_data := some d }
  | .UserProperty k v => { s with user_properties := s.user_properties ++ [(k, v)] }
  | _ => s

/-- The mutable locals captured by `decode_connect_ack`'s property closure
(decoder.rs lines 448–464). -/
structure ConnectAckProps where
  session_expiry_interval : Option Nat
  receive_maximum : Option Nat
  maximum_qos : Option QoS
  retain_available : Option Nat
  maximum_packet_size : Option Nat
  assigned_client_identifier : Option (List Nat)
  topic_alias_maximum : Option Nat
  reason_string : Option (List Nat)
  user_properties : List (List Nat × List Nat)
  wildcard_subscription_available : Option Nat
  subscription_identifiers_available : Option Nat
  shared_subscription_available : Option Nat
  server_keep_alive : Option Nat
  response_information : Option (List Nat)
  server_reference : Option (List Nat)
  authentication_method : Option (List Nat)
  authentication_data : Option (List Nat)
deriving DecidableEq

def connect_ack_props_init : ConnectAckProps :=
  { session_expiry_interval := none, receive_maximum := none,
    maximum_qos := none, retain_available := none, maximum_packet_size := none,
    assigned_client_identifier := none, topic_alias_maximum := none,
    reason_string := none, user_properties := [],
    wildcard_subscription_available := none,
    subscription_identifiers_available := none,
    shared_subscription_available := none, server_keep_alive := none,
    response_information := none, server_reference := none,
    authentication_method := none, authentication_data := none }

/-- The property closure of `decode_connect_ack` (decoder.rs lines 466–489). -/
def connect_ack_prop_accept (p : Property) (s : ConnectAckProps) :
    ConnectAckProps :=
  match p with
  | .SessionExpiryInterval v => { s with session_expiry_interval := some v }
  | .ReceiveMaximum v => { s with receive_maximum := some v }
  | .MaximumQos q => { s with maximum_qos := some q }
  | .RetainAvailable b => { s with retain_available := some b }
  | .MaximumPacketSize v => { s with maximum_packet_size := some v }
  | .AssignedClientIdentifier c =>
    { s with assigned_client_identifier := some c }
  | .TopicAliasMaximum v => { s with topic_alias_maximum := some v }
  | .ReasonString r => { s with reason_string := some r }
  | .UserProperty k v => { s with user_properties := s.user_properties ++ [(k, v)] }
  | .WildcardSubscriptionAvailable b =>
    { s with wildcard_subscription_available := some b }
  | .SubscriptionIdentifierAvailable b =>
    { s with subscription_identifiers_available := some b }
  | .SharedSubscriptionAvailable b =>
    { s with shared_subscription_available := some b }
  | .ServerKeepAlive v => { s with server_keep_alive := some v }
  | .ResponseInformation r => { s with response_information := some r }
  | .ServerReference r => { s with server_reference := some r }
  | .AuthenticationMethod m => { s with authentication_method := some m }
  | .AuthenticationData d => { s with authentication_data := some d }
  | _ => s

/-- The mutable locals captured by `decode_publish`'s property closure
(decoder.rs lines 535–542). -/
structure PublishProps where
  payload_format_indicator : Option Nat
  message_expiry_interval : Option Nat
  topic_alias : Option Nat
  response_topic : Option (List Nat)
  correlation_data : Option (List Nat)
  user_properties : List (List Nat × List Nat)
  subscription_identifier : Option Nat
  content_type : Option (List Nat)
deriving DecidableEq

def publish_props_init : PublishProps :=
  { payload_format_indicator := none, message_expiry_interval := none,
    topic_alias := none, response_topic := none, correlation_data := none,
    user_properties := [], subscription_identifier := none,
    content_type := none }

/-- The property closure of `decode_publish` (decoder.rs lines 544–556). -/
def publish_prop_accept (p : Property) (s : PublishProps) : PublishProps :=
  match p with
  | .PayloadFormatIndicator b => { s with payload_format_indicator := some b }
  | .MessageExpiryInterval v => { s with message_expiry_interval := some v }
  | .TopicAlias v => { s with topic_alias := some v }
  | .ResponseTopic t => { s with response_topic := some t }
  | .CorrelationData d => { s with correlation_data := some d }
  | .UserProperty k v => { s with user_properties := s.user_properties ++ [(k, v)] }
  | .SubscriptionIdentifier v => { s with subscription_identifier := some v }
  | .ContentType c => { s with content_type := some c }
  | _ => s

/-- The mutable locals `reason_string` / `user_properties` captured by the
property closures of the four publish-ack-family decoders and of
`decode_subscribe_ack` / `decode_unsubscribe_ack`; those six closures are
textually identical (e.g. decoder.rs lines 611–617). -/
structure AckProps where
  reason_string : Option (List Nat)
  user_properties : List (List Nat × List Nat)
deriving DecidableEq

def ack_props_init : AckProps :=
  { reason_string := none, user_properties := [] }

/-- The shared `ReasonString` / `UserProperty` closure (decoder.rs lines
611–617 and its five copies). -/
def ack_prop_accept (p : Property) (s : AckProps) : AckProps :=
  match p with
  | .ReasonString r => { s with reason_string := some r }
  | .UserProperty k v => { s with user_properties := s.user_properties ++ [(k, v)] }
  | _ => s

/-- The mutable locals captured by `decode_subscribe`'s property closure
(decoder.rs lines 744–745). -/
structure SubscribeProps where
  subscription_identifier : Option Nat
  user_properties : List (List Nat × List Nat)
deriving DecidableEq

def subscribe_props_init : SubscribeProps :=
  { subscription_identifier := none, user_properties := [] }

/-- The property closure of `decode_subscribe` (decoder.rs lines 747–753). -/
def subscribe_prop_accept (p : Property) (s : SubscribeProps) : SubscribeProps :=
  match p with
  | .SubscriptionIdentifier v => { s with subscription_identifier := some v }
  | .UserProperty k v => { s with user_properties := s.user_properties ++ [(k, v)] }
  | _ => s

/-- The property closure of `decode_unsubscribe` (decoder.rs lines 850–854):
only `UserProperty` is kept. -/
def unsubscribe_prop_accept (p : Property)
    (s : List (List Nat × List Nat)) : List (List Nat × List Nat) :=
  match p with
  | .UserProperty k v => s ++ [(k, v)]
  | _ => s

/-- The mutable locals captured by `decode_disconnect`'s property closure
(decoder.rs lines 934–937). -/
structure DisconnectProps where
  session_expiry_interval : Option Nat
  reason_string : Option (List Nat)
  user_properties : List (List Nat × List Nat)
  server_reference : Option (List Nat)
deriving DecidableEq

def disconnect_props_init : DisconnectProps :=
  { session_expiry_interval := none, reason_string := none,
    user_properties := [], server_reference := none }

/-- The property closure of `decode_disconnect` (decoder.rs lines 940–948). -/
def disconnect_prop_accept (p : Property) (s : DisconnectProps) :
    DisconnectProps :=
  match p with
  | .SessionExpiryInterval v => { s with session_expiry_interval := some v }
  | .ReasonString r => { s with reason_string := some r }
  | .UserProperty k v => { s with user_properties := s.user_properties ++ [(k, v)] }
  | .ServerReference r => { s with server_reference := some r }
  | _ => s

/-- The mutable locals captured by `decode_authenticate`'s property closure
(decoder.rs lines 980–983). -/
structure AuthenticateProps where
  authentication_method : Option (List Nat)
  authentication_data : Option (List Nat)
  reason_string : Option (List Nat)
  user_properties : List (List Nat × List Nat)
deriving DecidableEq

def authenticate_props_init : AuthenticateProps :=
  { authentication_method := none, authentication_data := none,
    reason_string := none, user_properties := [] }

/-- The property closure of `decode_authenticate` (decoder.rs lines 986–994). -/
def authenticate_prop_accept (p : Property) (s : AuthenticateProps) :
    AuthenticateProps :=
  match p with
  | .AuthenticationMethod m => { s with authentication_method := some m }
  | .AuthenticationData d => { s with authentication_data := some d }
  | .ReasonString r => { s with reason_string := some r }
  | .UserProperty k v => { s with user_properties := s.user_properties ++ [(k, v)] }
  | _ => s

/-- `decode_connect` (decoder.rs lines 322–438).  Reads protocol name, level,
connect flags and keep-alive, the property bag, then the payload in flag
order: client id, optional will (properties, topic, binary payload), optional
user name, optional password.  Flag masks become arithmetic on the flag byte
(which is `< 256`): clean-start `& 0x02` is `/ 2 % 2`, will `& 0x04` is
`/ 4 % 2`, will-QoS `(& 0x18) >> 3` is `/ 8 % 4`, will-retain `& 0x20` is
`/ 32 % 2`, password `& 0x40` is `/ 64 % 2`, user-name `& 0x80` is
`/ 128 % 2`.  As in the source, no check is made on the protocol name or
level, and the will-QoS check runs after the property bag is decoded. -/
def decode_connect (buf : List Nat) (pos : Nat) :
    Except DecodeError (Option (Packet × Nat)) :=
  match decode_string buf pos with
  | .error e => .error e
  | .ok none => .ok none
  | .ok (some (protocol_name, pos1)) =>
  match read_u8 buf pos1 with
  | none => .ok none
  | some (protocol_level, pos2) =>
  match read_u8 buf pos2 with
  | none => .ok none
  | some (connect_flags, pos3) =>
  match read_u16 buf pos3 with
  | none => .ok none
  | some (keep_alive, pos4) =>
  match decode_properties buf pos4 connect_prop_accept connect_props_init with
  | .error e => .error e
  | .ok none => .ok none
  | .ok (some (cp, pos5)) =>
  match QoS.fromByte (connect_flags / 8 % 4) with
  | none => .error .InvalidQoS
  | some will_qos =>
  match decode_string buf pos5 with
  | .error e => .error e
  | .ok none => .ok none
  | .ok (some (client_id, pos6)) =>
  match ((if connect_flags / 4 % 2 = 1 then
      match decode_properties buf pos6 will_prop_accept will_props_init with
      | .error e => .error e
      | .ok none => .ok none
      | .ok (some (wp, pos7)) =>
        match decode_string buf pos7 with
        | .error e => .error e
        | .ok none => .ok none
        | .ok (some (topic, pos8)) =>
          match decode_binary_data buf pos8 with
          | .error e => .error e
          | .ok none => .ok none
          | .ok (some (will_payload, pos9)) =>
            .ok (some (some
              { topic := topic, payload := will_payload, qos := will_qos,
                should_retain := connect_flags / 32 % 2 = 1,
                will_delay_interval := wp.will_delay_interval,
                payload_format_indicator := wp.payload_format_indicator,
                message_expiry_interval := wp.message_expiry_interval,
                content_type := wp.content_type,
                response_topic := wp.response_topic,
                correlation_data := wp.correlation_data,
                user_properties := wp.user_properties }, pos9))
    else .ok (some ((none : Option FinalWill), pos6))) :
    Except DecodeError (Option (Option FinalWill × Nat))) with
  | .error e => .error e
  | .ok none => .ok none
  | .ok (some (will, pos10)) =>
  match ((if connect_flags / 128 % 2 = 1 then
      match decode_string buf pos10 with
      | .error e => .error e
      | .ok none => .ok none
      | .ok (some (u, pos11)) => .ok (some (some u, pos11))
    else .ok (some ((none : Option (List Nat)), pos10))) :
    Except DecodeError (Option (Option (List Nat) × Nat))) with
  | .error e => .error e
  | .ok none => .ok none
  | .ok (some (user_name, pos12)) =>
  match ((if connect_flags / 64 % 2 = 1 then
      match decode_string buf pos12 with
      | .error e => .error e
      | .ok none => .ok none
      | .ok (some (pw, pos13)) => .ok (some (some pw, pos13))
    else .ok (some ((none : Option (List Nat)), pos12))) :
    Except DecodeError (Option (Option (List Nat) × Nat))) with
  | .error e => .error e
  | .ok none => .ok none
  | .ok (some (password, pos14)) =>
    .ok (some (Packet.Connect
      { protocol_name := protocol_name, protocol_level := protocol_level,
        clean_start := connect_flags / 2 % 2 = 1, keep_alive := keep_alive,
        session_expiry_interval := cp.session_expiry_interval,
        receive_maximum := cp.receive_maximum,
        maximum_packet_size := cp.maximum_packet_size,
        topic_alias_maximum := cp.topic_alias_maximum,
        request_response_information := cp.request_response_information,
        request_problem_information := cp.request_problem_information,
        user_properties := cp.user_properties,
        authentication_method := cp.authentication_method,
        authentication_data := cp.authentication_data,
        client_id := client_id, will := will, user_name := user_name,
        password := password }, pos14))

/-- `decode_connect_ack` (decoder.rs lines 440–514).  Ack-flags byte (bit 0 =
session-present, `& 0x01` is `% 2`), reason-code byte, property bag. -/
def decode_connect_ack (buf : List Nat) (pos : Nat) :
    Except DecodeError (Option (Packet × Nat)) :=
  match read_u8 buf pos with
  | none => .ok none
  | some (flags, pos1) =>
  match read_u8 buf pos1 with
  | none => .ok none
  | some (reason_code_byte, pos2) =>
  match ConnectReason.fromByte reason_code_byte with
  | none => .error .InvalidConnectReason
  | some reason_code =>
  match decode_properties buf pos2 connect_ack_prop_accept
      connect_ack_props_init with
  | .error e => .error e
  | .ok none => .ok none
  | .ok (some (ap, pos3)) =>
    .ok (some (Packet.ConnectAck
      { session_present := flags % 2 = 1, reason_code := reason_code,
        session_expiry_interval := ap.session_expiry_interval,
        receive_maximum := ap.receive_maximum,
        maximum_qos := ap.maximum_qos,
        retain_available := ap.retain_available,
        maximum_packet_size := ap.maximum_packet_size,
        assigned_client_identifier := ap.assigned_client_identifier,
        topic_alias_maximum := ap.topic_alias_maximum,
        reason_string := ap.reason_string,
        user_properties := ap.user_properties,
        wildcard_subscription_available := ap.wildcard_subscription_available,
        subscription_identifiers_available :=
          ap.subscription_identifiers_available,
        shared_subscription_available := ap.shared_subscription_available,
        server_keep_alive := ap.server_keep_alive,
        response_information := ap.response_information,
        server_reference := ap.server_reference,
        authentication_method := ap.authentication_method,
        authentication_data := ap.authentication_data }, pos3))

/-- `decode_publish` (decoder.rs lines 516–586).  First-byte flags: DUP
`& 0x08` is `/ 8 % 2`, QoS `(& 0x06) >> 1` is `/ 2 % 4`, retain `& 0x01` is
`% 2`.  The packet id is read only for QoS above `AtMostOnce`; the payload is
the rest of the frame, `remaining_packet_length` minus the variable-header
size, read with `decode_binary_data_with_size` (which, as in the source, does
not advance the cursor).  The `u64` subtraction producing `payload_size` is
rendered as truncated `Nat` subtraction. -/
def decode_publish (buf : List Nat) (pos : Nat) (first_byte : Nat)
    (remaining_packet_length : Nat) :
    Except DecodeError (Option (Packet × Nat)) :=
  match QoS.fromByte (first_byte / 2 % 4) with
  | none => .error .InvalidQoS
  | some qos =>
  match decode_string buf pos with
  | .error e => .error e
  | .ok none => .ok none
  | .ok (some (topic_name, pos1)) =>
  match (match qos with
    | QoS.AtMostOnce => .ok (some ((none : Option Nat), pos1))
    | QoS.AtLeastOnce | QoS.ExactlyOnce =>
      match read_u16 buf pos1 with
      | none => .ok none
      | some (pid, pos2) => .ok (some (some pid, pos2)) :
      Except DecodeError (Option (Option Nat × Nat))) with
  | .error e => .error e
  | .ok none => .ok none
  | .ok (some (packet_id, pos3)) =>
  match decode_properties buf pos3 publish_prop_accept publish_props_init with
  | .error e => .error e
  | .ok none => .ok none
  | .ok (some (pp, pos4)) =>
  match decode_binary_data_with_size buf pos4
      (remaining_packet_length - (pos4 - pos)) with
  | .error e => .error e
  | .ok none => .ok none
  | .ok (some (payload, pos5)) =>
    .ok (some (Packet.Publish
      { is_duplicate := first_byte / 8 % 2 = 1, qos := qos,
        retain := first_byte % 2 = 1, topic_name := topic_name,
        packet_id := packet_id,
        payload_format_indicator := pp.payload_format_indicator,
        message_expiry_interval := pp.message_expiry_interval,
        topic_alias := pp.topic_alias, response_topic := pp.response_topic,
        correlation_data := pp.correlation_data,
        user_properties := pp.user_properties,
        subscription_identifier := pp.subscription_identifier,
        content_type := pp.content_type, payload := payload }, pos5))

/-- `decode_publish_ack` (decoder.rs lines 588–623): packet id; when the
remaining length is 2 the reason defaults to `Success` with empty properties;
otherwise a reason byte, and a property bag only when the remaining length is
at least 4. -/
def decode_publish_ack (buf : List Nat) (pos : Nat)
    (remaining_packet_length : Nat) :
    Except DecodeError (Option (Packet × Nat)) :=
  match read_u16 buf pos with
  | none => .ok none
  | some (packet_id, pos1) =>
  if remaining_packet_length = 2 then
    .ok (some (Packet.PublishAck
      { packet_id := packet_id, reason_code := PublishAckReason.Success,
        reason_string := none, user_properties := [] }, pos1))
  else
  match read_u8 buf pos1 with
  | none => .ok none
  | some (reason_code_byte, pos2) =>
  match PublishAckReason.fromByte reason_code_byte with
  | none => .error .InvalidPublishAckReason
  | some reason_code =>
  match (if remaining_packet_length ≥ 4 then
      decode_properties buf pos2 ack_prop_accept ack_props_init
    else .ok (some (ack_props_init, pos2))) with
  | .error e => .error e
  | .ok none => .ok none
  | .ok (some (ap, pos3)) =>
    .ok (some (Packet.PublishAck
      { packet_id := packet_id, reason_code := reason_code,
        reason_string := ap.reason_string,
        user_properties := ap.user_properties }, pos3))

/-- `decode_publish_received` (decoder.rs lines 625–660), same grammar as
`decode_publish_ack`. -/
def decode_publish_received (buf : List Nat) (pos : Nat)
    (remaining_packet_length : Nat) :
    Except DecodeError (Option (Packet × Nat)) :=
  match read_u16 buf pos with
  | none => .ok none
  | some (packet_id, pos1) =>
  if remaining_packet_length = 2 then
    .ok (some (Packet.PublishReceived
      { packet_id := packet_id, reason_code := PublishReceivedReason.Success,
        reason_string := none, user_properties := [] }, pos1))
  else
  match read_u8 buf pos1 with
  | none => .ok none
  | some (reason_code_byte, pos2) =>
  match PublishReceivedReason.fromByte reason_code_byte with
  | none => .error .InvalidPublishReceivedReason
  | some reason_code =>
  match (if remaining_packet_length ≥ 4 then
      decode_properties buf pos2 ack_prop_accept ack_props_init
    else .ok (some (ack_props_init, pos2))) with
  | .error e => .error e
  | .ok none => .ok none
  | .ok (some (ap, pos3)) =>
    .ok (some (Packet.PublishReceived
      { packet_id := packet_id, reason_code := reason_code,
        reason_string := ap.reason_string,
        user_properties := ap.user_properties }, pos3))

/-- `decode_publish_release` (decoder.rs lines 662–697). -/
def decode_publish_release (buf : List Nat) (pos : Nat)
    (remaining_packet_length : Nat) :
    Except DecodeError (Option (Packet × Nat)) :=
  match read_u16 buf pos with
  | none => .ok none
  | some (packet_id, pos1) =>
  if remaining_packet_length = 2 then
    .ok (some (Packet.PublishRelease
      { packet_id := packet_id, reason_code := PublishReleaseReason.Success,
        reason_string := none, user_properties := [] }, pos1))
  else
  match read_u8 buf pos1 with
  | none => .ok none
  | some (reason_code_byte, pos2) =>
  match PublishReleaseReason.fromByte reason_code_byte with
  | none => .error .InvalidPublishReleaseReason
  | some reason_code =>
  match (if remaining_packet_length ≥ 4 then
      decode_properties buf pos2 ack_prop_accept ack_props_init
    else .ok (some (ack_props_init, pos2))) with
  | .error e => .error e
  | .ok none => .ok none
  | .ok (some (ap, pos3)) =>
    .ok (some (Packet.PublishRelease
      { packet_id := packet_id, reason_code := reason_code,
        reason_string := ap.reason_string,
        user_properties := ap.user_properties }, pos3))

/-- `decode_publish_complete` (decoder.rs lines 699–734). -/
def decode_publish_complete (buf : List Nat) (pos : Nat)
    (remaining_packet_length : Nat) :
    Except DecodeError (Option (Packet × Nat)) :=
  match read_u16 buf pos with
  | none => .ok none
  | some (packet_id, pos1) =>
  if remaining_packet_length = 2 then
    .ok (some (Packet.PublishComplete
      { packet_id := packet_id, reason_code := PublishCompleteReason.Success,
        reason_string := none, user_properties := [] }, pos1))
  else
  match read_u8 buf pos1 with
  | none => .ok none
  | some (reason_code_byte, pos2) =>
  match PublishCompleteReason.fromByte reason_code_byte with
  | none => .error .InvalidPublishCompleteReason
  | some reason_code =>
  match (if remaining_packet_length ≥ 4 then
      decode_properties buf pos2 ack_prop_accept ack_props_init
    else .ok (some (ack_props_init, pos2))) with
  | .error e => .error e
  | .ok none => .ok none
  | .ok (some (ap, pos3)) =>
    .ok (some (Packet.PublishComplete
      { packet_id := packet_id, reason_code := reason_code,
        reason_string := ap.reason_string,
        user_properties := ap.user_properties }, pos3))

/-- Payload loop of `decode_subscribe` (decoder.rs lines 761–793): while
`bytes_read < payload_size`, read a topic-filter string and an options byte
and push a `SubscriptionTopic`.  Options-byte masks: maximum-QoS `& 0x03` is
`% 4`, retain-handling `(& 0x30) >> 4` is `/ 16 % 4`, retain-as-published
`& 0x08` is `/ 8 % 2`, no-local `& 0x04` is `/ 4 % 2`.  Every iteration
consumes at least one byte, so `payload_size` iterations always reach the
break; with `fuel = payload_size` the `0` case returns what the break would. -/
def decode_subscribe_loop (buf : List Nat) (payload_size : Nat) :
    Nat → Nat → Nat → List SubscriptionTopic →
    Except DecodeError (Option (List SubscriptionTopic × Nat))
  | 0, _, pos, acc => .ok (some (acc, pos))
  | fuel + 1, bytes_read, pos, acc =>
    if bytes_read ≥ payload_size then .ok (some (acc, pos))
    else
      match decode_string buf pos with
      | .error e => .error e
      | .ok none => .ok none
      | .ok (some (topic, pos1)) =>
      match read_u8 buf pos1 with
      | none => .ok none
      | some (options_byte, pos2) =>
      match QoS.fromByte (options_byte % 4) with
      | none => .error .InvalidQoS
      | some maximum_qos =>
      match RetainHandling.fromByte (options_byte / 16 % 4) with
      | none => .error .InvalidRetainHandling
      | some retain_handling =>
        decode_subscribe_loop buf payload_size fuel
          (bytes_read + (pos2 - pos)) pos2
          (acc ++ [({ topic := topic, maximum_qos := maximum_qos,
                      no_local := options_byte / 4 % 2 = 1,
                      retain_as_published := options_byte / 8 % 2 = 1,
                      retain_handling := retain_handling } :
                    SubscriptionTopic)])

/-- `decode_subscribe` (decoder.rs lines 736–803): packet id, property bag,
then the subscription-entry loop over the rest of the frame; the `u64`
subtraction computing `payload_size` is rendered as truncated `Nat`
subtraction. -/
def decode_subscribe (buf : List Nat) (pos : Nat)
    (remaining_packet_length : Nat) :
    Except DecodeError (Option (Packet × Nat)) :=
  match read_u16 buf pos with
  | none => .ok none
  | some (packet_id, pos1) =>
  match decode_properties buf pos1 subscribe_prop_accept
      subscribe_props_init with
  | .error e => .error e
  | .ok none => .ok none
  | .ok (some (sp, pos2)) =>
  match decode_subscribe_loop buf (remaining_packet_length - (pos2 - pos))
      (remaining_packet_length - (pos2 - pos)) 0 pos2 [] with
  | .error e => .error e
  | .ok none => .ok none
  | .ok (some (subscription_topics, pos3)) =>
    .ok (some (Packet.Subscribe
      { packet_id := packet_id,
        subscription_identifier := sp.subscription_identifier,
        user_properties := sp.user_properties,
        subscription_topics := subscription_topics }, pos3))

/-- Payload loop of `decode_subscribe_ack` (decoder.rs lines 828–833):
`for _ in 0..payload_size`, read one byte and map it to a
`SubscribeAckReason`. -/
def subscribe_ack_codes (buf : List Nat) :
    Nat → Nat → List SubscribeAckReason →
    Except DecodeError (Option (List SubscribeAckReason × Nat))
  | 0, pos, acc => .ok (some (acc, pos))
  | n + 1, pos, acc =>
    match read_u8 buf pos with
    | none => .ok none
    | some (b, pos1) =>
      match SubscribeAckReason.fromByte b with
      | none => .error .InvalidSubscribeAckReason
      | some rc => subscribe_ack_codes buf n pos1 (acc ++ [rc])

/-- `decode_subscribe_ack` (decoder.rs lines 805–838). -/
def decode_subscribe_ack (buf : List Nat) (pos : Nat)
    (remaining_packet_length : Nat) :
    Except DecodeError (Option (Packet × Nat)) :=
  match read_u16 buf pos with
  | none => .ok none
  | some (packet_id, pos1) =>
  match decode_properties buf pos1 ack_prop_accept ack_props_init with
  | .error e => .error e
  | .ok none => .ok none
  | .ok (some (ap, pos2)) =>
  match subscribe_ack_codes buf (remaining_packet_length - (pos2 - pos))
      pos2 [] with
  | .error e => .error e
  | .ok none => .ok none
  | .ok (some (reason_codes, pos3)) =>
    .ok (some (Packet.SubscribeAck
      { packet_id := packet_id, reason_string := ap.reason_string,
        user_properties := ap.user_properties,
        reason_codes := reason_codes }, pos3))

/-- Payload loop of `decode_unsubscribe` (decoder.rs lines 862–874): while
`bytes_read < payload_size`, read a topic-filter string.  Every iteration
consumes at least one byte, so with `fuel = payload_size` the `0` case
returns what the break would. -/
def decode_unsubscribe_loop (buf : List Nat) (payload_size : Nat) :
    Nat → Nat → Nat → List (List Nat) →
    Except DecodeError (Option (List (List Nat) × Nat))
  | 0, _, pos, acc => .ok (some (acc, pos))
  | fuel + 1, bytes_read, pos, acc =>
    if bytes_read ≥ payload_size then .ok (some (acc, pos))
    else
      match decode_string buf pos with
      | .error e => .error e
      | .ok none => .ok none
      | .ok (some (topic, pos1)) =>
        decode_unsubscribe_loop buf payload_size fuel
          (bytes_read + (pos1 - pos)) pos1 (acc ++ [topic])

/-- `decode_unsubscribe` (decoder.rs lines 840–879). -/
def decode_unsubscribe (buf : List Nat) (pos : Nat)
    (remaining_packet_length : Nat) :
    Except DecodeError (Option (Packet × Nat)) :=
  match read_u16 buf pos with
  | none => .ok none
  | some (packet_id, pos1) =>
  match decode_properties buf pos1 unsubscribe_prop_accept [] with
  | .error e => .error e
  | .ok none => .ok none
  | .ok (some (user_properties, pos2)) =>
  match decode_unsubscribe_loop buf (remaining_packet_length - (pos2 - pos))
      (remaining_packet_length - (pos2 - pos)) 0 pos2 [] with
  | .error e => .error e
  | .ok none => .ok none
  | .ok (some (topics, pos3)) =>
    .ok (some (Packet.Unsubscribe
      { packet_id := packet_id, user_properties := user_properties,
        topics := topics }, pos3))

/-- Payload loop of `decode_unsubscribe_ack` (decoder.rs lines 903–909). -/
def unsubscribe_ack_codes (buf : List Nat) :
    Nat → Nat → List UnsubscribeAckReason →
    Except DecodeError (Option (List UnsubscribeAckReason × Nat))
  | 0, pos, acc => .ok (some (acc, pos))
  | n + 1, pos, acc =>
    match read_u8 buf pos with
    | none => .ok none
    | some (b, pos1) =>
      match UnsubscribeAckReason.fromByte b with
      | none => .error .InvalidUnsubscribeAckReason
      | some rc => unsubscribe_ack_codes buf n pos1 (acc ++ [rc])

/-- `decode_unsubscribe_ack` (decoder.rs lines 881–914). -/
def decode_unsubscribe_ack (buf : List Nat) (pos : Nat)
    (remaining_packet_length : Nat) :
    Except DecodeError (Option (Packet × Nat)) :=
  match read_u16 buf pos with
  | none => .ok none
  | some (packet_id, pos1) =>
  match decode_properties buf pos1 ack_prop_accept ack_props_init with
  | .error e => .error e
  | .ok none => .ok none
  | .ok (some (ap, pos2)) =>
  match unsubscribe_ack_codes buf (remaining_packet_length - (pos2 - pos))
      pos2 [] with
  | .error e => .error e
  | .ok none => .ok none
  | .ok (some (reason_codes, pos3)) =>
    .ok (some (Packet.UnsubscribeAck
      { packet_id := packet_id, reason_string := ap.reason_string,
        user_properties := ap.user_properties,
        reason_codes := reason_codes }, pos3))

/-- `decode_disconnect` (decoder.rs lines 916–960): remaining length 0 gives
the `NormalDisconnection` default; otherwise a reason byte, and a property bag
only when the remaining length is at least 2. -/
def decode_disconnect (buf : List Nat) (pos : Nat)
    (remaining_packet_length : Nat) :
    Except DecodeError (Option (Packet × Nat)) :=
  if remaining_packet_length = 0 then
    .ok (some (Packet.Disconnect
      { reason_code := DisconnectReason.NormalDisconnection,
        session_expiry_interval := none, reason_string := none,
        user_properties := [], server_reference := none }, pos))
  else
  match read_u8 buf pos with
  | none => .ok none
  | some (reason_code_byte, pos1) =>
  match DisconnectReason.fromByte reason_code_byte with
  | none => .error .InvalidDisconnectReason
  | some reason_code =>
  match (if remaining_packet_length ≥ 2 then
      decode_properties buf pos1 disconnect_prop_accept disconnect_props_init
    else .ok (some (disconnect_props_init, pos1))) with
  | .error e => .error e
  | .ok none => .ok none
  | .ok (some (dp, pos2)) =>
    .ok (some (Packet.Disconnect
      { reason_code := reason_code,
        session_expiry_interval := dp.session_expiry_interval,
        reason_string := dp.reason_string,
        user_properties := dp.user_properties,
        server_reference := dp.server_reference }, pos2))

/-- `decode_authenticate` (decoder.rs lines 962–1006): remaining length 0
gives the `Success` default; otherwise a reason byte, and a property bag only
when the remaining length is at least 2. -/
def decode_authenticate (buf : List Nat) (pos : Nat)
    (remaining_packet_length : Nat) :
    Except DecodeError (Option (Packet × Nat)) :=
  if remaining_packet_length = 0 then
    .ok (some (Packet.Authenticate
      { reason_code := AuthenticateReason.Success,
        authentication_method := none, authentication_data := none,
        reason_string := none, user_properties := [] }, pos))
  else
  match read_u8 buf pos with
  | none => .ok none
  | some (reason_code_byte, pos1) =>
  match AuthenticateReason.fromByte reason_code_byte with
  | none => .error .InvalidAuthenticateReason
  | some reason_code =>
  match (if remaining_packet_length ≥ 2 then
      decode_properties buf pos1 authenticate_prop_accept
        authenticate_props_init
    else .ok (some (authenticate_props_init, pos1))) with
  | .error e => .error e
  | .ok none => .ok none
  | .ok (some (ap, pos2)) =>
    .ok (some (Packet.Authenticate
      { reason_code := reason_code,
        authentication_method := ap.authentication_method,
        authentication_data := ap.authentication_data,
        reason_string := ap.reason_string,
        user_properties := ap.user_properties }, pos2))

/-- `decode_packet` (decoder.rs lines 1008–1031): dispatch on the packet
kind.  `PingRequest` / `PingResponse` produce their packet without reading. -/
def decode_packet (packet_type : PacketType) (buf : List Nat) (pos : Nat)
    (remaining_packet_length : Nat) (first_byte : Nat) :
    Except DecodeError (Option (Packet × Nat)) :=
  match packet_type with
  | .Connect => decode_connect buf pos
  | .ConnectAck => decode_connect_ack buf pos
  | .Publish => decode_publish buf pos first_byte remaining_packet_length
  | .PublishAck => decode_publish_ack buf pos remaining_packet_length
  | .PublishReceived => decode_publish_received buf pos remaining_packet_length
  | .PublishRelease => decode_publish_release buf pos remaining_packet_length
  | .PublishComplete => decode_publish_complete buf pos remaining_packet_length
  | .Subscribe => decode_subscribe buf pos remaining_packet_length
  | .SubscribeAck => decode_subscribe_ack buf pos remaining_packet_length
  | .Unsubscribe => decode_unsubscribe buf pos remaining_packet_length
  | .UnsubscribeAck => decode_unsubscribe_ack buf pos remaining_packet_length
  | .PingRequest => .ok (some (Packet.PingRequest, pos))
  | .PingResponse => .ok (some (Packet.PingResponse, pos))
  | .Disconnect => decode_disconnect buf pos remaining_packet_length
  | .Authenticate => decode_authenticate buf pos remaining_packet_length

/-- `decode_mqtt` (decoder.rs lines 1033–1063): the frame driver.  Read the
first byte (kind in the upper nibble, `(b & 0xF0) >> 4` is `b / 16`), the VBI
remaining length, bail with `Ok(None)` when the buffer holds fewer bytes than
the remaining length, dispatch, and on success drain the consumed byte-range
(`split_to(cursor_pos)`): the result pairs the packet with the bytes left in
the buffer, `buf.drop cursor_pos`.  On `.ok none` the source returns before
`split_to`, so the caller's buffer is untouched. -/
def decode_mqtt (buf : List Nat) :
    Except DecodeError (Option (Packet × List Nat)) :=
  match read_u8 buf 0 with
  | none => .ok none
  | some (first_byte, pos0) =>
  match PacketType.fromByte (first_byte / 16) with
  | none => .error .InvalidPacketType
  | some packet_type =>
  match decode_variable_int buf pos0 with
  | .error e => .error e
  | .ok none => .ok none
  | .ok (some (remaining_packet_length, pos1)) =>
  if buf.length - pos1 < remaining_packet_length then .ok none
  else
  match decode_packet packet_type buf pos1 remaining_packet_length
      first_byte with
  | .error e => .error e
  | .ok none => .ok none
  | .ok (some (packet, cursor_pos)) => .ok (some (packet, buf.drop cursor_pos))

theorem read_u8_pos_eq {buf : List Nat} {pos b q : Nat}
    (h : read_u8 buf pos = some (b, q)) : q = pos + 1 := by
  unfold read_u8 at h
  split at h
  · injection h with h1
    injection h1 with hb hq
    exact hq.symm
  · exact Option.noConfusion h

theorem read_u16_pos_eq {buf : List Nat} {pos v q : Nat}
    (h : read_u16 buf pos = some (v, q)) : q = pos + 2 := by
  unfold read_u16 at h
  split at h
  · injection h with h1
    injection h1 with hb hq
    exact hq.symm
  · exact Option.noConfusion h

theorem read_u8_take_lt {buf : List Nat} {m pos : Nat} (h : pos < m) :
    read_u8 (buf.take m) pos = read_u8 buf pos := by
  unfold read_u8
  rw [List.getElem?_take_of_lt h]

theorem read_u8_take_ge {buf : List Nat} {m pos : Nat} (h : m ≤ pos) :
    read_u8 (buf.take m) pos = none := by
  unfold read_u8
  rw [List.getElem?_take_eq_none h]

theorem vbi_go_pos_lt {buf : List Nat} :
    ∀ fuel mult val pos v p,
      decode_variable_int_go buf fuel mult val pos = .ok (some (v, p)) →
      pos < p := by
  intro fuel
  induction fuel with
  | zero =>
    intro mult val pos v p h
    exact Except.noConfusion h
  | succ fuel ih =>
    intro mult val pos v p h
    unfold decode_variable_int_go at h
    cases hr : read_u8 buf pos with
    | none =>
      simp only [hr] at h
      exact Option.noConfusion (Except.ok.inj h)
    | some bp =>
      obtain ⟨b, pos1⟩ := bp
      have hpos1 : pos1 = pos + 1 := read_u8_pos_eq hr
      simp only [hr] at h
      by_cases hc1 : 128 * 128 * 128 < mult * 128
      · rw [if_pos hc1] at h
        exact Except.noConfusion h
      · rw [if_neg hc1] at h
        by_cases hc2 : b / 128 = 0
        · rw [if_pos hc2] at h
          injection h with h1
          injection h1 with h2
          injection h2 with hv hp
          omega
        · rw [if_neg hc2] at h
          have := ih _ _ _ _ _ h
          omega

theorem vbi_go_take {buf : List Nat} {m : Nat} :
    ∀ fuel mult val pos v p,
      decode_variable_int_go buf fuel mult val pos = .ok (some (v, p)) →
      decode_variable_int_go (buf.take m) fuel mult val pos =
        if p ≤ m then .ok (some (v, p)) else .ok none := by
  intro fuel
  induction fuel with
  | zero =>
    intro mult val pos v p h
    exact Except.noConfusion h
  | succ fuel ih =>
    intro mult val pos v p h
    unfold decode_variable_int_go at h ⊢
    cases hr : read_u8 buf pos with
    | none =>
      simp only [hr] at h
      exact Option.noConfusion (Except.ok.inj h)
    | some bp =>
      obtain ⟨b, pos1⟩ := bp
      have hpos1 : pos1 = pos + 1 := read_u8_pos_eq hr
      simp only [hr] at h
      by_cases hpm : pos < m
      · simp only [read_u8_take_lt hpm, hr]
        by_cases hc1 : 128 * 128 * 128 < mult * 128
        · rw [if_pos hc1] at h
          exact Except.noConfusion h
        · rw [if_neg hc1] at h
          rw [if_neg hc1]
          by_cases hc2 : b / 128 = 0
          · rw [if_pos hc2] at h
            rw [if_pos hc2]
            injection h with h1
            injection h1 with h2
            injection h2 with hv hp
            subst hv
            subst hp
            rw [if_pos (by omega)]
          · rw [if_neg hc2] at h
            rw [if_neg hc2]
            exact ih _ _ _ _ _ h
      · simp only [read_u8_take_ge (show m ≤ pos by omega)]
        by_cases hc1 : 128 * 128 * 128 < mult * 128
        · rw [if_pos hc1] at h
          exact Except.noConfusion h
        · rw [if_neg hc1] at h
          by_cases hc2 : b / 128 = 0
          · rw [if_pos hc2] at h
            injection h with h1
            injection h1 with h2
            injection h2 with hv hp
            rw [if_neg (by omega)]
          · rw [if_neg hc2] at h
            have := vbi_go_pos_lt _ _ _ _ _ _ h
            rw [if_neg (by omega)]

/-- C1: the claim says a four-byte VBI whose fourth byte has its high bit
clear decodes to its value (2 097 152 … 268 435 455).  In the code the
`multiplier > 128^3` check runs before the continuation-bit test, so every
fourth byte — continuation bit set or not — yields `InvalidRemainingLength`:
the minimal four-byte encoding `80 80 80 01` of 2 097 152 is rejected, while
the three-byte maximum `FF FF 7F` (2 097 151) still decodes. -/
theorem c1_four_byte_vbi_rejected :
    decode_variable_int [0x80, 0x80, 0x80, 0x01] 0 =
      .error .InvalidRemainingLength ∧
    decode_variable_int [0xFF, 0xFF, 0x7F] 0 = .ok (some (2097151, 3)) := by
  constructor
  · rfl
  · rfl

/-- C2: the claim says decoding a complete frame drains
`1 + |VBI| + remaining-length` bytes.  For the Publish frame
`30 05 00 01 61 00 FF` (topic `"a"`, no properties, one payload byte `FF`,
remaining-length 5) the code produces the packet — with the payload correctly
equal to `[0xFF]` — but drains only 6 bytes, because
`decode_binary_data_with_size` never advances the cursor past the payload;
the payload byte `FF` is left in the buffer instead of the claimed empty
suffix. -/
theorem c2_publish_frame_not_fully_drained :
    decode_mqtt [0x30, 0x05, 0x00, 0x01, 0x61, 0x00, 0xFF] =
      .ok (some (Packet.Publish
        { is_duplicate := false, qos := QoS.AtMostOnce, retain := false,
          topic_name := [0x61], packet_id := none,
          payload_format_indicator := none, message_expiry_interval := none,
          topic_alias := none, response_topic := none,
          correlation_data := none, user_properties := [],
          subscription_identifier := none, content_type := none,
          payload := [0xFF] }, [0xFF])) := by
  rfl

/-- C3: the claim says the `SubscriptionIdentifier` property (id 11) payload
is decoded as a 1–4-byte VBI.  The code reads it with `read_u32!`: given the
single byte `05` (the one-byte VBI of 5) it reports Incomplete, and given
`05 00 00 00` it consumes four bytes and returns the big-endian value
83 886 080 instead of 5. -/
theorem c3_subscription_identifier_read_as_u32 :
    decode_property 11 [0x05] 0 = .ok none ∧
    decode_property 11 [0x05, 0x00, 0x00, 0x00] 0 =
      .ok (some (Property.SubscriptionIdentifier 83886080, 4)) := by
  constructor
  · rfl
  · rfl

/-- C6: `decode_binary_data`, on success, returns the `N` bytes that follow
the two-byte length prefix but leaves the cursor immediately after the prefix
(`pos + 2`), not after the data — the next read from the same cursor starts
at the first data byte. -/
theorem c6_binary_data_cursor_after_length (buf : List Nat) (pos : Nat)
    (data : List Nat) (pos2 : Nat)
    (h : decode_binary_data buf pos = .ok (some (data, pos2))) :
    ∃ n, read_u16 buf pos = some (n, pos + 2) ∧ pos2 = pos + 2 ∧
      data = (buf.drop (pos + 2)).take n := by
  unfold decode_binary_data at h
  cases hr : read_u16 buf pos with
  | none =>
    simp only [hr] at h
    exact Option.noConfusion (Except.ok.inj h)
  | some np =>
    obtain ⟨n, pos1⟩ := np
    have hpos1 : pos1 = pos + 2 := read_u16_pos_eq hr
    subst hpos1
    simp only [hr] at h
    split at h
    · exact Option.noConfusion (Except.ok.inj h)
    · injection h with h1
      injection h1 with h2
      injection h2 with hd hp
      exact ⟨n, rfl, hp.symm, hd.symm⟩

/-- Witness for C6 at the concrete input `00 02 41 42`: length 2, data
`41 42`, cursor left at 2 (the first data byte). -/
theorem c6_binary_data_cursor_after_length_witness :
    ∃ n, read_u16 [0x00, 0x02, 0x41, 0x42] 0 = some (n, 2) ∧
      (2 : Nat) = 2 ∧
      [0x41, 0x42] = (([0x00, 0x02, 0x41, 0x42].drop 2).take n : List Nat) :=
  c6_binary_data_cursor_after_length [0x00, 0x02, 0x41, 0x42] 0
    [0x41, 0x42] 2 (by rfl)

/-- C9: for any buffer position where a two-byte packet id can be read,
`decode_publish_ack` with remaining-length 2 produces a `PublishAck` whose
reason code is `Success`, whose reason string is `none` and whose
user-property list is empty; and on the whole frame `40 02 00 07` the driver
produces exactly `PublishAck{packet_id: 7, Success, none, []}` draining the
full buffer. -/
theorem c9_publish_ack_short (buf : List Nat) (pos pid pos1 : Nat)
    (h : read_u16 buf pos = some (pid, pos1)) :
    decode_publish_ack buf pos 2 =
      .ok (some (Packet.PublishAck
        { packet_id := pid, reason_code := PublishAckReason.Success,
          reason_string := none, user_properties := [] }, pos1)) ∧
    decode_mqtt [0x40, 0x02, 0x00, 0x07] =
      .ok (some (Packet.PublishAck
        { packet_id := 7, reason_code := PublishAckReason.Success,
          reason_string := none, user_properties := [] }, [])) := by
  constructor
  · unfold decode_publish_ack
    rw [h]
    rfl
  · rfl

/-- Witness for C9 at the `S5` scenario bytes `40 02 00 07` (the packet-id
read starts at position 2). -/
theorem c9_publish_ack_short_witness :
    decode_publish_ack [0x40, 0x02, 0x00, 0x07] 2 2 =
      .ok (some (Packet.PublishAck
        { packet_id := 7, reason_code := PublishAckReason.Success,
          reason_string := none, user_properties := [] }, 4)) ∧
    decode_mqtt [0x40, 0x02, 0x00, 0x07] =
      .ok (some (Packet.PublishAck
        { packet_id := 7, reason_code := PublishAckReason.Success,
          reason_string := none, user_properties := [] }, [])) :=
  c9_publish_ack_short [0x40, 0x02, 0x00, 0x07] 2 7 4 (by rfl)

/-- C8: a property identifier outside the 27-entry table makes
`decode_property` fail with `InvalidPropertyId`, whatever the buffer holds;
and a property that is in the table but not legal for a Connect packet falls
into the closure's `_ => {}` arm, leaving the whole property state — hence
every field of the packet under construction — unchanged. -/
theorem c8_property_id_handling :
    (∀ id, PropertyType.fromId id = none →
      ∀ buf pos, decode_property id buf pos = .error .InvalidPropertyId) ∧
    (∀ p s, connect_prop_is_accepted p = false → connect_prop_accept p s = s) := by
  constructor
  · intro id hid buf pos
    unfold decode_property
    rw [hid]
  · intro p s hp
    cases p <;> first
      | rfl
      | exact absurd hp (by simp [connect_prop_is_accepted])

/-- Witness for C8: identifier 4 is not in the table and fails on the empty
buffer; the Publish-only `TopicAlias` property is dropped unchanged by the
Connect acceptor. -/
theorem c8_property_id_handling_witness :
    decode_property 4 [] 0 = .error .InvalidPropertyId ∧
    connect_prop_accept (Property.TopicAlias 3) connect_props_init =
      connect_props_init :=
  ⟨c8_property_id_handling.1 4 (by rfl) [] 0,
   c8_property_id_handling.2 (Property.TopicAlias 3) connect_props_init
     (by rfl)⟩

/-- C5 counterexample: the claim says a Connect frame whose protocol name is
not `"MQTT"` or whose level byte is not 5 is not Produced.  The frame below
has protocol name `"ABCD"` and level 9, and `decode_mqtt` produces a Connect
packet (storing those very values), draining the whole buffer. -/
theorem c5_counterexample_bad_name_level_produced :
    decode_mqtt [0x10, 0x11, 0x00, 0x04, 0x41, 0x42, 0x43, 0x44, 0x09, 0x00,
      0x00, 0x3C, 0x00, 0x00, 0x04, 0x74, 0x65, 0x73, 0x74] =
      .ok (some (Packet.Connect
        { protocol_name := [0x41, 0x42, 0x43, 0x44], protocol_level := 9,
          clean_start := false, keep_alive := 60,
          session_expiry_interval := none, receive_maximum := none,
          maximum_packet_size := none, topic_alias_maximum := none,
          request_response_information := none,
          request_problem_information := none, user_properties := [],
          authentication_method := none, authentication_data := none,
          client_id := [0x74, 0x65, 0x73, 0x74], will := none,
          user_name := none, password := none }, [])) := by
  rfl

/-- C10 counterexample: the claim says every Subscribe packet produced by
decode has a non-empty subscription list.  The frame `80 03 00 01 00`
(packet id 1, empty property bag, empty payload) is Produced with
`subscription_topics = []`. -/
theorem c10_counterexample_empty_subscribe_produced :
    decode_mqtt [0x80, 0x03, 0x00, 0x01, 0x00] =
      .ok (some (Packet.Subscribe
        { packet_id := 1, subscription_identifier := none,
          user_properties := [], subscription_topics := [] }, [])) := by
  rfl

/-- C4: for a buffer `E` that `decode_mqtt` accepts and that is frame-exact
(its length is exactly the end of the remaining-length VBI plus the remaining
length), every strict prefix `E.take m` decodes to `Ok(None)` — the source
returns before `split_to`, so the caller's buffer is untouched — and
re-decoding after the missing bytes are appended produces the same packet and
leftover as decoding `E` in one shot. -/
theorem c4_strict_prefix_incomplete (E : List Nat) (pkt : Packet)
    (rest : List Nat) (v p : Nat)
    (hdec : decode_mqtt E = .ok (some (pkt, rest)))
    (hvbi : decode_variable_int E 1 = .ok (some (v, p)))
    (hlen : E.length = p + v) (m : Nat) (hm : m < E.length) :
    decode_mqtt (E.take m) = .ok none ∧
      decode_mqtt (E.take m ++ E.drop m) = .ok (some (pkt, rest)) := by
  refine ⟨?_, by rw [List.take_append_drop]; exact hdec⟩
  rcases Nat.eq_zero_or_pos m with hm0 | hm1
  · subst hm0
    rfl
  · unfold decode_mqtt at hdec
    cases h0 : read_u8 E 0 with
    | none =>
      simp only [h0] at hdec
      exact Option.noConfusion (Except.ok.inj hdec)
    | some bp =>
      obtain ⟨b0, q0⟩ := bp
      have hq0 : q0 = 1 := by
        have := read_u8_pos_eq h0
        omega
      subst hq0
      simp only [h0] at hdec
      cases hpt : PacketType.fromByte (b0 / 16) with
      | none =>
        simp only [hpt] at hdec
        exact Except.noConfusion hdec
      | some pt =>
        unfold decode_variable_int at hvbi
        have htake := vbi_go_take (m := m) 4 1 0 1 v p hvbi
        have hlen2 : (E.take m).length = m :=
          List.length_take_of_le (Nat.le_of_lt hm)
        unfold decode_mqtt
        rw [read_u8_take_lt hm1, h0]
        simp only [hpt]
        unfold decode_variable_int
        rw [htake]
        by_cases hpm2 : p ≤ m
        · rw [if_pos hpm2]
          simp only [hlen2]
          rw [if_pos (by omega)]
        · rw [if_neg hpm2]

theorem decode_connect_shape (buf : List Nat) (pos : Nat) (pk : Packet)
    (q : Nat) (h : decode_connect buf pos = .ok (some (pk, q))) :
    ∃ c, pk = Packet.Connect c := by
  unfold decode_connect at h
  repeat' split at h
  all_goals
    first
    | exact Except.noConfusion h
    | exact Option.noConfusion (Except.ok.inj h)
    | (injection h with h4; injection h4 with h5; injection h5 with h6 h7;
       exact ⟨_, h6.symm⟩)

theorem decode_connect_ack_shape (buf : List Nat) (pos : Nat) (pk : Packet)
    (q : Nat) (h : decode_connect_ack buf pos = .ok (some (pk, q))) :
    ∃ c, pk = Packet.ConnectAck c := by
  unfold decode_connect_ack at h
  repeat' split at h
  all_goals
    first
    | exact Except.noConfusion h
    | exact Option.noConfusion (Except.ok.inj h)
    | (injection h with h4; injection h4 with h5; injection h5 with h6 h7;
       exact ⟨_, h6.symm⟩)

theorem decode_publish_ack_shape (buf : List Nat) (pos rem : Nat)
    (pk : Packet) (q : Nat)
    (h : decode_publish_ack buf pos rem = .ok (some (pk, q))) :
    ∃ c, pk = Packet.PublishAck c := by
  unfold decode_publish_ack at h
  repeat' split at h
  all_goals
    first
    | exact Except.noConfusion h
    | exact Option.noConfusion (Except.ok.inj h)
    | (injection h with h4; injection h4 with h5; injection h5 with h6 h7;
       exact ⟨_, h6.symm⟩)

theorem decode_publish_received_shape (buf : List Nat) (pos rem : Nat)
    (pk : Packet) (q : Nat)
    (h : decode_publish_received buf pos rem = .ok (some (pk, q))) :
    ∃ c, pk = Packet.PublishReceived c := by
  unfold decode_publish_received at h
  repeat' split at h
  all_goals
    first
    | exact Except.noConfusion h
    | exact Option.noConfusion (Except.ok.inj h)
    | (injection h with h4; injection h4 with h5; injection h5 with h6 h7;
       exact ⟨_, h6.symm⟩)

theorem decode_publish_release_shape (buf : List Nat) (pos rem : Nat)
    (pk : Packet) (q : Nat)
    (h : decode_publish_release buf pos rem = .ok (some (pk, q))) :
    ∃ c, pk = Packet.PublishRelease c := by
  unfold decode_publish_release at h
  repeat' split at h
  all_goals
    first
    | exact Except.noConfusion h
    | exact Option.noConfusion (Except.ok.inj h)
    | (injection h with h4; injection h4 with h5; injection h5 with h6 h7;
       exact ⟨_, h6.symm⟩)

theorem decode_publish_complete_shape (buf : List Nat) (pos rem : Nat)
    (pk : Packet) (q : Nat)
    (h : decode_publish_complete buf pos rem = .ok (some (pk, q))) :
    ∃ c, pk = Packet.PublishComplete c := by
  unfold decode_publish_complete at h
  repeat' split at h
  all_goals
    first
    | exact Except.noConfusion h
    | exact Option.noConfusion (Except.ok.inj h)
    | (injection h with h4; injection h4 with h5; injection h5 with h6 h7;
       exact ⟨_, h6.symm⟩)

theorem decode_subscribe_shape (buf : List Nat) (pos rem : Nat)
    (pk : Packet) (q : Nat)
    (h : decode_subscribe buf pos rem = .ok (some (pk, q))) :
    ∃ c, pk = Packet.Subscribe c := by
  unfold decode_subscribe at h
  repeat' split at h
  all_goals
    first
    | exact Except.noConfusion h
    | exact Option.noConfusion (Except.ok.inj h)
    | (injection h with h4; injection h4 with h5; injection h5 with h6 h7;
       exact ⟨_, h6.symm⟩)

theorem decode_subscribe_ack_shape (buf : List Nat) (pos rem : Nat)
    (pk : Packet) (q : Nat)
    (h : decode_subscribe_ack buf pos rem = .ok (some (pk, q))) :
    ∃ c, pk = Packet.SubscribeAck c := by
  unfold decode_subscribe_ack at h
  repeat' split at h
  all_goals
    first
    | exact Except.noConfusion h
    | exact Option.noConfusion (Except.ok.inj h)
    | (injection h with h4; injection h4 with h5; injection h5 with h6 h7;
       exact ⟨_, h6.symm⟩)

theorem decode_unsubscribe_shape (buf : List Nat) (pos rem : Nat)
    (pk : Packet) (q : Nat)
    (h : decode_unsubscribe buf pos rem = .ok (some (pk, q))) :
    ∃ c, pk = Packet.Unsubscribe c := by
  unfold decode_unsubscribe at h
  repeat' split at h
  all_goals
    first
    | exact Except.noConfusion h
    | exact Option.noConfusion (Except.ok.inj h)
    | (injection h with h4; injection h4 with h5; injection h5 with h6 h7;
       exact ⟨_, h6.symm⟩)

theorem decode_unsubscribe_ack_shape (buf : List Nat) (pos rem : Nat)
    (pk : Packet) (q : Nat)
    (h : decode_unsubscribe_ack buf pos rem = .ok (some (pk, q))) :
    ∃ c, pk = Packet.UnsubscribeAck c := by
  unfold decode_unsubscribe_ack at h
  repeat' split at h
  all_goals
    first
    | exact Except.noConfusion h
    | exact Option.noConfusion (Except.ok.inj h)
    | (injection h with h4; injection h4 with h5; injection h5 with h6 h7;
       exact ⟨_, h6.symm⟩)

theorem decode_disconnect_shape (buf : List Nat) (pos rem : Nat)
    (pk : Packet) (q : Nat)
    (h : decode_disconnect buf pos rem = .ok (some (pk, q))) :
    ∃ c, pk = Packet.Disconnect c := by
  unfold decode_disconnect at h
  repeat' split at h
  all_goals
    first
    | exact Except.noConfusion h
    | exact Option.noConfusion (Except.ok.inj h)
    | (injection h with h4; injection h4 with h5; injection h5 with h6 h7;
       exact ⟨_, h6.symm⟩)

theorem decode_authenticate_shape (buf : List Nat) (pos rem : Nat)
    (pk : Packet) (q : Nat)
    (h : decode_authenticate buf pos rem = .ok (some (pk, q))) :
    ∃ c, pk = Packet.Authenticate c := by
  unfold decode_authenticate at h
  repeat' split at h
  all_goals
    first
    | exact Except.noConfusion h
    | exact Option.noConfusion (Except.ok.inj h)
    | (injection h with h4; injection h4 with h5; injection h5 with h6 h7;
       exact ⟨_, h6.symm⟩)

theorem decode_publish_shape_coupling (buf : List Nat) (pos fb rem : Nat)
    (pk : Packet) (q : Nat)
    (h : decode_publish buf pos fb rem = .ok (some (pk, q))) :
    ∃ c, pk = Packet.Publish c ∧
      (c.packet_id.isSome = true ↔ c.qos ≠ QoS.AtMostOnce) := by
  unfold decode_publish at h
  cases hq : QoS.fromByte (fb / 2 % 4) with
  | none =>
    simp only [hq] at h
    exact Except.noConfusion h
  | some qos =>
    simp only [hq] at h
    cases hs : decode_string buf pos with
    | error e =>
      simp only [hs] at h
      exact Except.noConfusion h
    | ok o =>
      cases o with
      | none =>
        simp only [hs] at h
        exact Option.noConfusion (Except.ok.inj h)
      | some tp =>
        obtain ⟨topic, pos1⟩ := tp
        simp only [hs] at h
        cases qos with
        | AtMostOnce =>
          simp only [] at h
          repeat' split at h
          all_goals
            first
            | exact Except.noConfusion h
            | exact Option.noConfusion (Except.ok.inj h)
            | (injection h with h4; injection h4 with h5;
               injection h5 with h6 h7;
               exact ⟨_, h6.symm, by simp⟩)
        | AtLeastOnce =>
          simp only [] at h
          cases hu : read_u16 buf pos1 with
          | none =>
            simp only [hu] at h
            exact Option.noConfusion (Except.ok.inj h)
          | some ip =>
            obtain ⟨pid, pos2⟩ := ip
            simp only [hu] at h
            repeat' split at h
            all_goals
              first
              | exact Except.noConfusion h
              | exact Option.noConfusion (Except.ok.inj h)
              | (injection h with h4; injection h4 with h5;
                 injection h5 with h6 h7;
                 exact ⟨_, h6.symm, by simp⟩)
        | ExactlyOnce =>
          simp only [] at h
          cases hu : read_u16 buf pos1 with
          | none =>
            simp only [hu] at h
            exact Option.noConfusion (Except.ok.inj h)
          | some ip =>
            obtain ⟨pid, pos2⟩ := ip
            simp only [hu] at h
            repeat' split at h
            all_goals
              first
              | exact Except.noConfusion h
              | exact Option.noConfusion (Except.ok.inj h)
              | (injection h with h4; injection h4 with h5;
                 injection h5 with h6 h7;
                 exact ⟨_, h6.symm, by simp⟩)

/-- C4 witness: the PingRequest frame `C0 00` (VBI ends at 2, remaining
length 0) at the strict prefix of length 1. -/
theorem c4_strict_prefix_incomplete_witness :
    decode_mqtt ([0xC0, 0x00].take 1) = .ok none ∧
      decode_mqtt ([0xC0, 0x00].take 1 ++ [0xC0, 0x00].drop 1) =
        .ok (some (Packet.PingRequest, [])) :=
  c4_strict_prefix_incomplete [0xC0, 0x00] Packet.PingRequest [] 0 2
    (by rfl) (by rfl) (by rfl) 1 (by simp)

/-- C7: every Publish packet the frame driver produces couples its packet id
to its QoS: the id is present exactly when the QoS is not `AtMostOnce`. -/
theorem c7_publish_qos_packet_id_coupling (buf : List Nat)
    (pp : PublishPacket) (rest : List Nat)
    (h : decode_mqtt buf = .ok (some (Packet.Publish pp, rest))) :
    (pp.packet_id.isSome = true ↔ pp.qos ≠ QoS.AtMostOnce) := by
  unfold decode_mqtt at h
  cases h0 : read_u8 buf 0 with
  | none =>
    simp only [h0] at h
    exact Option.noConfusion (Except.ok.inj h)
  | some bp =>
    obtain ⟨fb, q0⟩ := bp
    simp only [h0] at h
    cases hpt : PacketType.fromByte (fb / 16) with
    | none =>
      simp only [hpt] at h
      exact Except.noConfusion h
    | some pt =>
      simp only [hpt] at h
      cases hv : decode_variable_int buf q0 with
      | error e =>
        simp only [hv] at h
        exact Except.noConfusion h
      | ok o =>
        cases o with
        | none =>
          simp only [hv] at h
          exact Option.noConfusion (Except.ok.inj h)
        | some vp =>
          obtain ⟨rem, pos1⟩ := vp
          simp only [hv] at h
          split at h
          · exact Option.noConfusion (Except.ok.inj h)
          · cases hdp : decode_packet pt buf pos1 rem fb with
            | error e =>
              simp only [hdp] at h
              exact Except.noConfusion h
            | ok o2 =>
              cases o2 with
              | none =>
                simp only [hdp] at h
                exact Option.noConfusion (Except.ok.inj h)
              | some pc =>
                obtain ⟨packet, cursor_pos⟩ := pc
                simp only [hdp] at h
                injection h with h4
                injection h4 with h5
                injection h5 with h6 h7
                subst h6
                cases pt <;> simp only [decode_packet] at hdp
                case Connect =>
                  obtain ⟨c, hc⟩ := decode_connect_shape _ _ _ _ hdp
                  exact Packet.noConfusion hc
                case ConnectAck =>
                  obtain ⟨c, hc⟩ := decode_connect_ack_shape _ _ _ _ hdp
                  exact Packet.noConfusion hc
                case Publish =>
                  obtain ⟨c, hc, hiff⟩ :=
                    decode_publish_shape_coupling _ _ _ _ _ _ hdp
                  injection hc with hc2
                  rw [hc2]
                  exact hiff
                case PublishAck =>
                  obtain ⟨c, hc⟩ := decode_publish_ack_shape _ _ _ _ _ hdp
                  exact Packet.noConfusion hc
                case PublishReceived =>
                  obtain ⟨c, hc⟩ := decode_publish_received_shape _ _ _ _ _ hdp
                  exact Packet.noConfusion hc
                case PublishRelease =>
                  obtain ⟨c, hc⟩ := decode_publish_release_shape _ _ _ _ _ hdp
                  exact Packet.noConfusion hc
                case PublishComplete =>
                  obtain ⟨c, hc⟩ := decode_publish_complete_shape _ _ _ _ _ hdp
                  exact Packet.noConfusion hc
                case Subscribe =>
                  obtain ⟨c, hc⟩ := decode_subscribe_shape _ _ _ _ _ hdp
                  exact Packet.noConfusion hc
                case SubscribeAck =>
                  obtain ⟨c, hc⟩ := decode_subscribe_ack_shape _ _ _ _ _ hdp
                  exact Packet.noConfusion hc
                case Unsubscribe =>
                  obtain ⟨c, hc⟩ := decode_unsubscribe_shape _ _ _ _ _ hdp
                  exact Packet.noConfusion hc
                case UnsubscribeAck =>
                  obtain ⟨c, hc⟩ := decode_unsubscribe_ack_shape _ _ _ _ _ hdp
                  exact Packet.noConfusion hc
                case PingRequest =>
                  injection hdp with hd1
                  injection hd1 with hd2
                  injection hd2 with hd3 hd4
                  exact Packet.noConfusion hd3
                case PingResponse =>
                  injection hdp with hd1
                  injection hd1 with hd2
                  injection hd2 with hd3 hd4
                  exact Packet.noConfusion hd3
                case Disconnect =>
                  obtain ⟨c, hc⟩ := decode_disconnect_shape _ _ _ _ _ hdp
                  exact Packet.noConfusion hc
                case Authenticate =>
                  obtain ⟨c, hc⟩ := decode_authenticate_shape _ _ _ _ _ hdp
                  exact Packet.noConfusion hc

/-- C7 witness: the QoS-1 Publish frame `32 06 00 01 61 00 07 00`
(topic `"a"`, packet id 7, empty properties, empty payload). -/
theorem c7_publish_qos_packet_id_coupling_witness :
    (((some 7 : Option Nat).isSome = true) ↔ QoS.AtLeastOnce ≠ QoS.AtMostOnce) :=
  c7_publish_qos_packet_id_coupling
    [0x32, 0x06, 0x00, 0x01, 0x61, 0x00, 0x07, 0x00]
    { is_duplicate := false, qos := QoS.AtLeastOnce, retain := false,
      topic_name := [0x61], packet_id := some 7,
      payload_format_indicator := none, message_expiry_interval := none,
      topic_alias := none, response_topic := none, correlation_data := none,
      user_properties := [], subscription_identifier := none,
      content_type := none, payload := [] } [] (by rfl)

/-- C5 (amended): `decode_connect` performs no validation of the protocol
name or level: whatever string and byte are read at those positions are
stored unchanged in the produced Connect packet, and success does not depend
on their values. -/
theorem c5_amended_connect_stores_name_level (buf : List Nat) (pos : Nat)
    (nm : List Nat) (p1 lvl p2 : Nat) (pk : Packet) (q : Nat)
    (h1 : decode_string buf pos = .ok (some (nm, p1)))
    (h2 : read_u8 buf p1 = some (lvl, p2))
    (h3 : decode_connect buf pos = .ok (some (pk, q))) :
    ∃ c, pk = Packet.Connect c ∧ c.protocol_name = nm ∧
      c.protocol_level = lvl := by
  unfold decode_connect at h3
  simp only [h1, h2] at h3
  repeat' split at h3
  all_goals
    first
    | exact Except.noConfusion h3
    | exact Option.noConfusion (Except.ok.inj h3)
    | (injection h3 with h4; injection h4 with h5; injection h5 with h6 h7;
       exact ⟨_, h6.symm, rfl, rfl⟩)

/-- C5 amended witness: the counterexample frame's Connect body (name
`"ABCD"` at position 2, level byte 9 at position 8). -/
theorem c5_amended_connect_stores_name_level_witness :
    ∃ c, Packet.Connect
        { protocol_name := [0x41, 0x42, 0x43, 0x44], protocol_level := 9,
          clean_start := false, keep_alive := 60,
          session_expiry_interval := none, receive_maximum := none,
          maximum_packet_size := none, topic_alias_maximum := none,
          request_response_information := none,
          request_problem_information := none, user_properties := [],
          authentication_method := none, authentication_data := none,
          client_id := [0x74, 0x65, 0x73, 0x74], will := none,
          user_name := none, password := none } = Packet.Connect c ∧
      c.protocol_name = [0x41, 0x42, 0x43, 0x44] ∧ c.protocol_level = 9 :=
  c5_amended_connect_stores_name_level
    [0x10, 0x11, 0x00, 0x04, 0x41, 0x42, 0x43, 0x44, 0x09, 0x00, 0x00, 0x3C,
      0x00, 0x00, 0x04, 0x74, 0x65, 0x73, 0x74] 2
    [0x41, 0x42, 0x43, 0x44] 8 9 9 _ 19 (by rfl) (by rfl) (by rfl)

theorem subscribe_loop_acc_extends (buf : List Nat) (ps : Nat) :
    ∀ fuel br pos acc ts q,
      decode_subscribe_loop buf ps fuel br pos acc = .ok (some (ts, q)) →
      ∃ tail, ts = acc ++ tail := by
  intro fuel
  induction fuel with
  | zero =>
    intro br pos acc ts q h
    injection h with h1
    injection h1 with h2
    injection h2 with h3 h4
    exact ⟨[], by rw [← h3, List.append_nil]⟩
  | succ fuel ih =>
    intro br pos acc ts q h
    unfold decode_subscribe_loop at h
    split at h
    · injection h with h1
      injection h1 with h2
      injection h2 with h3 h4
      exact ⟨[], by rw [← h3, List.append_nil]⟩
    · repeat' split at h
      all_goals
        first
        | exact Except.noConfusion h
        | exact Option.noConfusion (Except.ok.inj h)
        | (obtain ⟨tail, htail⟩ := ih _ _ _ _ _ h;
           exact ⟨_, by rw [htail, List.append_assoc]⟩)

/-- C10 (amended): a Subscribe frame accepted by the decoder yields at least
one subscription entry whenever its payload (the bytes after the packet id
and property bag, measured against the remaining length) is non-empty; the
empty-payload frame of the counterexample is the only way to obtain an empty
list. -/
theorem c10_amended_nonempty_payload_nonempty_topics (buf : List Nat)
    (pos rem pid pos1 : Nat) (st : SubscribeProps) (pos2 : Nat)
    (pk : Packet) (q : Nat)
    (h1 : read_u16 buf pos = some (pid, pos1))
    (h2 : decode_properties buf pos1 subscribe_prop_accept
      subscribe_props_init = .ok (some (st, pos2)))
    (h3 : pos2 - pos < rem)
    (h4 : decode_subscribe buf pos rem = .ok (some (pk, q))) :
    ∃ sp, pk = Packet.Subscribe sp ∧ sp.subscription_topics ≠ [] := by
  unfold decode_subscribe at h4
  simp only [h1, h2] at h4
  obtain ⟨k, hk⟩ : ∃ k, rem - (pos2 - pos) = k + 1 :=
    ⟨rem - (pos2 - pos) - 1, by omega⟩
  rw [hk] at h4
  unfold decode_subscribe_loop at h4
  rw [if_neg (by omega)] at h4
  cases hs : decode_string buf pos2 with
  | error e =>
    simp only [hs] at h4
    exact Except.noConfusion h4
  | ok o =>
    cases o with
    | none =>
      simp only [hs] at h4
      exact Option.noConfusion (Except.ok.inj h4)
    | some tp =>
      obtain ⟨topic, posA⟩ := tp
      simp only [hs] at h4
      cases hb : read_u8 buf posA with
      | none =>
        simp only [hb] at h4
        exact Option.noConfusion (Except.ok.inj h4)
      | some ob =>
        obtain ⟨options_byte, posB⟩ := ob
        simp only [hb] at h4
        cases hq : QoS.fromByte (options_byte % 4) with
        | none =>
          simp only [hq] at h4
          exact Except.noConfusion h4
        | some mq =>
          simp only [hq] at h4
          cases hrh : RetainHandling.fromByte (options_byte / 16 % 4) with
          | none =>
            simp only [hrh] at h4
            exact Except.noConfusion h4
          | some rh =>
            simp only [hrh] at h4
            split at h4
            · exact Except.noConfusion h4
            · exact Option.noConfusion (Except.ok.inj h4)
            · rename_i ts pos3 hloop
              obtain ⟨tail, htail⟩ :=
                subscribe_loop_acc_extends buf (k + 1) _ _ _ _ _ _ hloop
              injection h4 with h5
              injection h5 with h6
              injection h6 with h7 h8
              refine ⟨_, h7.symm, ?_⟩
              simp only [htail]
              simp

/-- C10 amended witness: the one-entry Subscribe body
`80 07 00 01 00 00 01 61 00` (packet id 1, empty property bag, one
topic-filter `"a"` with options byte 0; payload starts at position 5 and the
remaining length 7 exceeds the 3-byte variable header). -/
theorem c10_amended_nonempty_payload_nonempty_topics_witness :
    ∃ sp, Packet.Subscribe
        { packet_id := 1, subscription_identifier := none,
          user_properties := [],
          subscription_topics := [{ topic := [0x61],
                                    maximum_qos := QoS.AtMostOnce,
                                    no_local := false,
                                    retain_as_published := false,
                                    retain_handling :=
                                      RetainHandling.SendAtSubscribeTime }] } =
        Packet.Subscribe sp ∧ sp.subscription_topics ≠ [] :=
  c10_amended_nonempty_payload_nonempty_topics
    [0x80, 0x07, 0x00, 0x01, 0x00, 0x00, 0x01, 0x61, 0x00] 2 7 1 4
    subscribe_props_init 5 _ 9 (by rfl) (by rfl) (by omega) (by rfl)
